import Mathlib

/-! CloudSploit rule bodies: a shallow embedding.

The seven rule files

* `plugins/aws/ec2/openAllPortsProtocols.js`
* `plugins/aws/cloudfront/cloudfrontWafEnabled.js`
* `plugins/azure/loadbalancer/lbHasTags.js`
* `plugins/azure/postgresqlserver/postgresqlPrivateEndpoints.js`
* `plugins/azure/virtualmachinescaleset/autoOsUpgradesEnabled.js`
* `plugins/azure/networksecuritygroups/openCassandraClient.js`
* `plugins/azure/networksecuritygroups/openMemcached.js`

are translated to pure Lean functions.  The mutable `results` array and the
`source` object become explicit state that every step threads through; a
JavaScript value that may be `undefined` becomes an `Option`; the functions of
the `helpers` modules, which the rule files only call, are either parameters
(`AwsHelpers`, `AzureHelpers`) or small models written from the design
document (`addResult`, `addSource`, `asyncEach`).
-/

namespace Cloudsploit

/-! ## JavaScript value conventions -/

/-- Conversion of a possibly undefined string to a string, as done by `+` and by
template literals: `undefined` prints as the text `undefined`. -/
def jsStr : Option String → String
  | some s => s
  | none => "undefined"

/-- Truthiness of a possibly undefined string: `undefined` and the empty string
are falsy. -/
def truthyStr : Option String → Bool
  | some s => s != ""
  | none => false

/-- Truthiness of a possibly undefined number, so that `!x` is
`!(truthyNum x)`: `undefined` and `0` are falsy. -/
def truthyNum : Option Int → Bool
  | some n => n != 0
  | none => false

/-- The expression `x || d` on a possibly undefined string `x` and a string `d`. -/
def jsOr (x : Option String) (d : String) : String :=
  match x with
  | some s => if s = "" then d else s
  | none => d

/-- The method `Array.prototype.join` on an array of strings. -/
def jsJoin (sep : String) : List String → String
  | [] => ""
  | [x] => x
  | x :: y :: rest => x ++ sep ++ jsJoin sep (y :: rest)

/-! ## Result model and source cache -/

/-- One finding, as pushed on the `results` array. -/
structure Finding where
  status : Nat
  message : String
  region : Option String
  resource : Option String
deriving DecidableEq, Repr

/-- Address of one collected API call outcome. -/
structure CacheKey where
  service : String
  operation : String
  scope : String
deriving DecidableEq, Repr

/-- One collected API call outcome: the rules read its fields `err` and `data`. -/
structure CacheEntry (α : Type) where
  err : Option String
  data : Option (List α)
deriving DecidableEq, Repr

/-- The outcomes of one (service, operation) pair, by scope; `none` is the
absent entry. -/
abbrev Table (α : Type) := String → Option (CacheEntry α)

/-- Modelled from the spec: `helpers.addResult` (the helpers modules are not
among the rule files).  A finding is a record of status, message, scope and an
optional resource identifier, and findings are kept in insertion order. -/
def addResult (results : List Finding) (status : Nat) (message : String)
    (region : Option String) (resource : Option String) : List Finding :=
  results ++ [{ status := status, message := message, region := region, resource := resource }]

/-- Modelled from the spec: `helpers.addSource` (the helpers modules are not
among the rule files).  A lookup by service, operation and scope is a pure read
that returns the entry or absent, and the source trace records the key that was
consulted. -/
def addSource {α : Type} (table : Table α) (source : List CacheKey)
    (service operation scope : String) : Option (CacheEntry α) × List CacheKey :=
  (table scope, source ++ [{ service := service, operation := operation, scope := scope }])

/-- The test `entry.err || !entry.data` that every rule applies to a present
entry. -/
def entryFailed {α : Type} (entry : CacheEntry α) : Bool :=
  truthyStr entry.err || entry.data.isNone

/-! ## Payloads read by the rules -/

/-- One element of `permission.IpRanges`. -/
structure IpRange where
  CidrIp : String
deriving DecidableEq, Repr

/-- One element of `permission.Ipv6Ranges`. -/
structure Ipv6Range where
  CidrIpv6 : String
deriving DecidableEq, Repr

/-- One element of `group.IpPermissions`. -/
structure IpPermission where
  IpProtocol : String
  FromPort : Option Int
  ToPort : Option Int
  IpRanges : List IpRange
  Ipv6Ranges : List Ipv6Range
deriving DecidableEq, Repr

/-- One element of the `describeSecurityGroups` data. -/
structure SecurityGroup where
  GroupId : Option String
  GroupName : Option String
  OwnerId : Option String
  IpPermissions : List IpPermission
deriving DecidableEq, Repr

/-- One element of the `listDistributions` data. -/
structure Distribution where
  WebACLId : Option String
  ARN : Option String
deriving DecidableEq, Repr

/-- One element of the `loadBalancers.listAll` data. -/
structure LoadBalancer where
  id : Option String
  tags : Option (List (String × String))
deriving DecidableEq, Repr

/-- One element of the `servers.listPostgres` data; only the length of
`privateEndpointConnections` is read. -/
structure PostgresServer where
  id : Option String
  privateEndpointConnections : Option (List String)
deriving DecidableEq, Repr

/-- The object `upgradePolicy.automaticOSUpgradePolicy` of a scale set. -/
structure AutomaticOSUpgradePolicy where
  enableAutomaticOSUpgrade : Option Bool
deriving DecidableEq, Repr

/-- The object `upgradePolicy` of a scale set. -/
structure UpgradePolicy where
  automaticOSUpgradePolicy : Option AutomaticOSUpgradePolicy
deriving DecidableEq, Repr

/-- One element of the `virtualMachineScaleSets.listAll` data. -/
structure VirtualMachineScaleSet where
  id : Option String
  upgradePolicy : Option UpgradePolicy
deriving DecidableEq, Repr

/-- One element of the `networkSecurityGroups.listAll` data.  The two port rules
never read it: they hand the list to `helpers.findOpenPorts`. -/
structure NetworkSecurityGroup where
  id : Option String
  fields : List (String × String)
deriving DecidableEq, Repr

/-- The collected outcomes that the seven rules consult. -/
structure Cache where
  describeSecurityGroups : Table SecurityGroup
  listDistributions : Table Distribution
  loadBalancersListAll : Table LoadBalancer
  serversListPostgres : Table PostgresServer
  virtualMachineScaleSetsListAll : Table VirtualMachineScaleSet
  networkSecurityGroupsListAll : Table NetworkSecurityGroup

/-- The settings mapping handed to `run`. -/
structure Settings where
  ec2_skip_unused_groups : Option String
  check_network_interface : Option String
  govcloud : Option Bool
deriving DecidableEq, Repr

/-- The functions of `helpers/aws` that the two AWS rules call and whose bodies
are not part of the rule files.  A helper that receives the `results` array may
change it, so it is a function from the array before the call to the array
after it.  `getUsedSecurityGroups` is also handed the continuation `rcb`; it is
taken not to invoke it. -/
structure AwsHelpers where
  regions : Settings → List String
  defaultRegion : Settings → String
  defaultPartition : Settings → String
  addError : {α : Type} → CacheEntry α → String
  getUsedSecurityGroups : Cache → List Finding → String → List Finding × Option (List String)
  checkNetworkInterface : Option String → Option String → String → String → List Finding →
    String → Cache → List Finding

/-- The functions of `helpers/azure` that the five Azure rules call and whose
bodies are not part of the rule files. -/
structure AzureHelpers where
  locationsLoadBalancers : Option Bool → List String
  locationsServers : Option Bool → List String
  locationsVirtualMachineScaleSets : Option Bool → List String
  locationsNetworkSecurityGroups : Option Bool → List String
  addError : {α : Type} → CacheEntry α → String
  findOpenPorts : List NetworkSecurityGroup → List (String × List Nat) → String → String →
    List Finding → List Finding

/-! ## The regional dispatcher -/

/-- State threaded through a run: the `results` array and the `source` trace. -/
structure Acc where
  results : List Finding
  source : List CacheKey
deriving DecidableEq, Repr

/-- Outcome of one per-scope work function: the state it leaves and the number
of times it invoked its continuation `rcb`. -/
structure Step where
  acc : Acc
  rcb : Nat
deriving DecidableEq, Repr

/-- Arguments of one invocation of the completion callback of `run`. -/
structure Completion where
  error : Option String
  results : List Finding
  source : List CacheKey
deriving DecidableEq, Repr

/-- The iteration of `async.each` over work functions that finish synchronously:
the scopes are visited in list order, the state is threaded through, and the
numbers of continuation calls are collected. -/
def eachScope (iteratee : Acc → String → Step) : List String → Acc → Acc × List Nat
  | [], acc => (acc, [])
  | scope :: rest, acc =>
    let step := iteratee acc scope
    let tail := eachScope iteratee rest step.acc
    (tail.1, step.rcb :: tail.2)

/-- Modelled from the spec: the regional dispatcher `async.each` (a library, not
among the rule files).  The completion function is invoked only after every
scope's work has finished, that is once every work function has invoked its
continuation once; it is invoked at once on an empty scope list. -/
def asyncEach (scopes : List String) (iteratee : Acc → String → Step)
    (final : Acc → Completion) (acc : Acc) : List Completion :=
  let out := eachScope iteratee scopes acc
  if out.2.all (fun n => n == 1) then [final out.1] else []

/-! ## openAllPortsProtocols -/

/-- The two mode flags computed at the start of `run`. -/
structure Config where
  ec2_skip_unused_groups : Bool
  check_network_interface : Bool
deriving DecidableEq, Repr

/-- The defaults declared in the `settings` block of the rule. -/
def defaultSkipUnusedGroups : String := "false"

/-- The default of `check_network_interface` in the `settings` block. -/
def defaultCheckNetworkInterface : String := "false"

/-- Lines 39 to 45: `settings.x || default`, then comparison with `'true'`. -/
def mkConfig (settings : Settings) : Config :=
  { ec2_skip_unused_groups :=
      decide (jsOr settings.ec2_skip_unused_groups defaultSkipUnusedGroups = "true")
    check_network_interface :=
      decide (jsOr settings.check_network_interface defaultCheckNetworkInterface = "true") }

/-- The statement `if (strings.indexOf(s) === -1) strings.push(s)`. -/
def pushUnique (strings : List String) (s : String) : List String :=
  if s ∈ strings then strings else strings ++ [s]

/-- The test `!permission.FromPort && (!permission.ToPort || permission.ToPort === 65535)`. -/
def allPortsOpen (permission : IpPermission) : Bool :=
  !(truthyNum permission.FromPort) &&
    (!(truthyNum permission.ToPort) || decide (permission.ToPort = some 65535))

/-- Body of the loop over `permission.IpRanges` (lines 84 to 96). -/
def scanIpRange (permission : IpPermission) (strings : List String) (range : IpRange) :
    List String :=
  if range.CidrIp = "0.0.0.0/0" then
    let strings1 :=
      if allPortsOpen permission then pushUnique strings "all ports open to 0.0.0.0/0"
      else strings
    if permission.IpProtocol = "-1" then pushUnique strings1 "all protocols open to 0.0.0.0/0"
    else strings1
  else strings

/-- Body of the loop over `permission.Ipv6Ranges` (lines 100 to 112). -/
def scanIpv6Range (permission : IpPermission) (strings : List String) (rangeV6 : Ipv6Range) :
    List String :=
  if rangeV6.CidrIpv6 = "::/0" then
    let strings1 :=
      if allPortsOpen permission then pushUnique strings "all ports open to ::/0"
      else strings
    if permission.IpProtocol = "-1" then pushUnique strings1 "all protocols open to ::/0"
    else strings1
  else strings

/-- Body of the loop over `groups[g].IpPermissions` (lines 81 to 113). -/
def scanPermission (strings : List String) (permission : IpPermission) : List String :=
  permission.Ipv6Ranges.foldl (scanIpv6Range permission)
    (permission.IpRanges.foldl (scanIpRange permission) strings)

/-- The array `strings` of one group after the loop over its permissions
(lines 75 to 114). -/
def groupStrings (permissions : List IpPermission) : List String :=
  permissions.foldl scanPermission []

/-- The resource identifier built at lines 76 to 78. -/
def groupArn (awsOrGov region : String) (group : SecurityGroup) : String :=
  "arn:" ++ awsOrGov ++ ":ec2:" ++ region ++ ":" ++ jsStr group.OwnerId ++
    ":security-group/" ++ jsStr group.GroupId

/-- The condition of line 117 and 118 that selects the WARN branch. -/
def unusedGroup (config : Config) (usedGroups : Option (List String)) (group : SecurityGroup) :
    Bool :=
  config.ec2_skip_unused_groups && truthyStr group.GroupId &&
    (match usedGroups with
     | some used => used.length != 0 && !(used.contains (jsStr group.GroupId))
     | none => false)

/-- The message of the FAIL finding and of the string handed to
`checkNetworkInterface`; the two spellings differ by one blank. -/
def flaggedMessage (lead : String) (group : SecurityGroup) (strings : List String) : String :=
  lead ++ jsStr group.GroupId ++ " (" ++ jsStr group.GroupName ++ ") has " ++
    jsJoin " and " strings

/-- Body of the loop over `groups` (lines 75 to 135): what one group does to
the `results` array. -/
def checkGroup (h : AwsHelpers) (cache : Cache) (config : Config) (awsOrGov region : String)
    (usedGroups : Option (List String)) (results : List Finding) (group : SecurityGroup) :
    List Finding :=
  let strings := groupStrings group.IpPermissions
  let resource := groupArn awsOrGov region group
  if strings.length ≠ 0 then
    if unusedGroup config usedGroups group then
      addResult results 1 ("Security Group: " ++ jsStr group.GroupId ++ " is not in use")
        (some region) (some resource)
    else if config.check_network_interface then
      h.checkNetworkInterface group.GroupId group.GroupName
        (flaggedMessage "Security group:" group strings) region results resource cache
    else
      addResult results 2 (flaggedMessage "Security group: " group strings)
        (some region) (some resource)
  else
    addResult results 0
      ("Security group: " ++ jsStr group.GroupId ++ " (" ++ jsStr group.GroupName ++
        ") does not have all ports or protocols open to the public")
      (some region) (some resource)

/-- Lines 69 to 72: the used-groups index is requested only in usage-check mode;
otherwise the variable `usedGroups` stays undefined. -/
def loadUsedGroups (h : AwsHelpers) (cache : Cache) (config : Config) (region : String)
    (results : List Finding) : List Finding × Option (List String) :=
  if config.ec2_skip_unused_groups then h.getUsedSecurityGroups cache results region
  else (results, none)

/-- The per-region work function of `openAllPortsProtocols` (lines 52 to 139). -/
def openAllPortsRegion (h : AwsHelpers) (cache : Cache) (config : Config) (awsOrGov : String)
    (acc : Acc) (region : String) : Step :=
  let looked := addSource cache.describeSecurityGroups acc.source "ec2" "describeSecurityGroups"
    region
  match looked.1 with
  | none => { acc := { results := acc.results, source := looked.2 }, rcb := 1 }
  | some entry =>
    if entryFailed entry then
      { acc := { results := addResult acc.results 3
                    ("Unable to query for security groups: " ++ h.addError entry)
                    (some region) none
                 source := looked.2 }
        rcb := 1 }
    else
      let groups := entry.data.getD []
      if groups.length = 0 then
        { acc := { results := addResult acc.results 0 "No security groups present"
                      (some region) none
                   source := looked.2 }
          rcb := 1 }
      else
        let used := loadUsedGroups h cache config region acc.results
        { acc := { results := groups.foldl (checkGroup h cache config awsOrGov region used.2)
                      used.1
                   source := looked.2 }
          rcb := 1 }

/-- The entry point `run` of `openAllPortsProtocols`: the list of invocations of
`callback`. -/
def openAllPortsRun (h : AwsHelpers) (cache : Cache) (settings : Settings) : List Completion :=
  let config := mkConfig settings
  asyncEach (h.regions settings)
    (openAllPortsRegion h cache config (h.defaultPartition settings))
    (fun acc => { error := none, results := acc.results, source := acc.source })
    { results := [], source := [] }

/-! ## cloudfrontWafEnabled -/

/-- Body of the `forEach` over the distributions (lines 39 to 48). -/
def checkDistribution (results : List Finding) (distribution : Distribution) : List Finding :=
  if !(truthyStr distribution.WebACLId) || decide (distribution.WebACLId = some "") then
    addResult results 2 "The CloudFront Distribution does not have WAF enabled"
      (some "global") distribution.ARN
  else
    addResult results 0 "The CloudFront Distribution has WAF enabled"
      (some "global") distribution.ARN

/-- The work of `cloudfrontWafEnabled` on its single scope, the default region
(lines 17 to 50).  The rule has no dispatcher: every path ends in one call of
`callback`, counted here in the field `rcb`. -/
def cloudfrontScope (h : AwsHelpers) (cache : Cache) (acc : Acc) (region : String) : Step :=
  let looked := addSource cache.listDistributions acc.source "cloudfront" "listDistributions"
    region
  match looked.1 with
  | none => { acc := { results := acc.results, source := looked.2 }, rcb := 1 }
  | some entry =>
    if entryFailed entry then
      { acc := { results := addResult acc.results 3
                    ("Unable to query for CloudFront distributions: " ++ h.addError entry)
                    none none
                 source := looked.2 }
        rcb := 1 }
    else
      let distributions := entry.data.getD []
      if distributions.length = 0 then
        { acc := { results := addResult acc.results 0 "No CloudFront distributions found"
                      none none
                   source := looked.2 }
          rcb := 1 }
      else
        { acc := { results := distributions.foldl checkDistribution acc.results
                   source := looked.2 }
          rcb := 1 }

/-- The entry point `run` of `cloudfrontWafEnabled`: the list of invocations of
`callback`. -/
def cloudfrontRun (h : AwsHelpers) (cache : Cache) (settings : Settings) : List Completion :=
  let step := cloudfrontScope h cache { results := [], source := [] } (h.defaultRegion settings)
  List.replicate step.rcb
    { error := none, results := step.acc.results, source := step.acc.source }

/-! ## The Azure rules -/

/-- Body of the loop over the load balancers in `lbHasTags` (lines 39 to 45). -/
def checkLoadBalancer (location : String) (results : List Finding) (lb : LoadBalancer) :
    List Finding :=
  if !(truthyStr lb.id) then results
  else
    match lb.tags with
    | some tags =>
      if tags.length > 0 then
        addResult results 0 "Load Balancer has tags associated" (some location) lb.id
      else
        addResult results 2 "Load Balancer does not have tags associated" (some location) lb.id
    | none =>
      addResult results 2 "Load Balancer does not have tags associated" (some location) lb.id

/-- The per-location work function of `lbHasTags` (lines 25 to 48). -/
def lbHasTagsLocation (h : AzureHelpers) (cache : Cache) (acc : Acc) (location : String) : Step :=
  let looked := addSource cache.loadBalancersListAll acc.source "loadBalancers" "listAll" location
  match looked.1 with
  | none => { acc := { results := acc.results, source := looked.2 }, rcb := 1 }
  | some entry =>
    if entryFailed entry then
      { acc := { results := addResult acc.results 3
                    ("Unable to query Load Balancers: " ++ h.addError entry) (some location) none
                 source := looked.2 }
        rcb := 1 }
    else
      let loadBalancers := entry.data.getD []
      if loadBalancers.length = 0 then
        { acc := { results := addResult acc.results 0 "No existing Load Balancers found"
                      (some location) none
                   source := looked.2 }
          rcb := 1 }
      else
        { acc := { results := loadBalancers.foldl (checkLoadBalancer location) acc.results
                   source := looked.2 }
          rcb := 1 }

/-- The entry point `run` of `lbHasTags`. -/
def lbHasTagsRun (h : AzureHelpers) (cache : Cache) (settings : Settings) : List Completion :=
  asyncEach (h.locationsLoadBalancers settings.govcloud) (lbHasTagsLocation h cache)
    (fun acc => { error := none, results := acc.results, source := acc.source })
    { results := [], source := [] }

/-- Body of the loop over the servers in `postgresqlPrivateEndpoints`
(lines 38 to 44). -/
def checkPostgresServer (location : String) (results : List Finding) (server : PostgresServer) :
    List Finding :=
  match server.privateEndpointConnections with
  | some connections =>
    if connections.length ≠ 0 then
      addResult results 0 "Private Endpoints are configured for the PostgreSQL Server"
        (some location) server.id
    else
      addResult results 2 "Private Endpoints are not configured for the PostgreSQL Server"
        (some location) server.id
  | none =>
    addResult results 2 "Private Endpoints are not configured for the PostgreSQL Server"
      (some location) server.id

/-- The per-location work function of `postgresqlPrivateEndpoints`
(lines 25 to 47). -/
def postgresLocation (h : AzureHelpers) (cache : Cache) (acc : Acc) (location : String) : Step :=
  let looked := addSource cache.serversListPostgres acc.source "servers" "listPostgres" location
  match looked.1 with
  | none => { acc := { results := acc.results, source := looked.2 }, rcb := 1 }
  | some entry =>
    if entryFailed entry then
      { acc := { results := addResult acc.results 3
                    ("Unable to query for PostgreSQL servers: " ++ h.addError entry)
                    (some location) none
                 source := looked.2 }
        rcb := 1 }
    else
      let servers := entry.data.getD []
      if servers.length = 0 then
        { acc := { results := addResult acc.results 0 "No PostgreSQL servers found"
                      (some location) none
                   source := looked.2 }
          rcb := 1 }
      else
        { acc := { results := servers.foldl (checkPostgresServer location) acc.results
                   source := looked.2 }
          rcb := 1 }

/-- The entry point `run` of `postgresqlPrivateEndpoints`. -/
def postgresRun (h : AzureHelpers) (cache : Cache) (settings : Settings) : List Completion :=
  asyncEach (h.locationsServers settings.govcloud) (postgresLocation h cache)
    (fun acc => { error := none, results := acc.results, source := acc.source })
    { results := [], source := [] }

/-- The condition of lines 39 to 41 of `autoOsUpgradesEnabled`. -/
def autoUpgradeEnabled (scaleSet : VirtualMachineScaleSet) : Bool :=
  match scaleSet.upgradePolicy with
  | some policy =>
    match policy.automaticOSUpgradePolicy with
    | some auto => auto.enableAutomaticOSUpgrade == some true
    | none => false
  | none => false

/-- Body of the `forEach` over the scale sets in `autoOsUpgradesEnabled`
(lines 38 to 50). -/
def checkScaleSet (location : String) (results : List Finding)
    (scaleSet : VirtualMachineScaleSet) : List Finding :=
  if autoUpgradeEnabled scaleSet then
    addResult results 0 "Automatic OS upgrades feature is enabled for virtual machine scale set"
      (some location) scaleSet.id
  else
    addResult results 2
      "Automatic OS upgrades feature is not enabled for virtual machine scale set"
      (some location) scaleSet.id

/-- The per-location work function of `autoOsUpgradesEnabled` (lines 20 to 53). -/
def autoOsUpgradesLocation (h : AzureHelpers) (cache : Cache) (acc : Acc) (location : String) :
    Step :=
  let looked := addSource cache.virtualMachineScaleSetsListAll acc.source
    "virtualMachineScaleSets" "listAll" location
  match looked.1 with
  | none => { acc := { results := acc.results, source := looked.2 }, rcb := 1 }
  | some entry =>
    if entryFailed entry then
      { acc := { results := addResult acc.results 3
                    ("Unable to query for Virtual Machine Scale Sets: " ++ h.addError entry)
                    (some location) none
                 source := looked.2 }
        rcb := 1 }
    else
      let scaleSets := entry.data.getD []
      if scaleSets.length = 0 then
        { acc := { results := addResult acc.results 0
                      "No existing Virtual Machine Scale Sets found" (some location) none
                   source := looked.2 }
          rcb := 1 }
      else
        { acc := { results := scaleSets.foldl (checkScaleSet location) acc.results
                   source := looked.2 }
          rcb := 1 }

/-- The entry point `run` of `autoOsUpgradesEnabled`. -/
def autoOsUpgradesRun (h : AzureHelpers) (cache : Cache) (settings : Settings) :
    List Completion :=
  asyncEach (h.locationsVirtualMachineScaleSets settings.govcloud)
    (autoOsUpgradesLocation h cache)
    (fun acc => { error := none, results := acc.results, source := acc.source })
    { results := [], source := [] }

/-- The per-location work function shared, up to the table `ports` and the name
`service`, by `openCassandraClient` and `openMemcached` (lines 20 to 46). -/
def openPortLocation (h : AzureHelpers) (cache : Cache) (ports : List (String × List Nat))
    (service : String) (acc : Acc) (location : String) : Step :=
  let looked := addSource cache.networkSecurityGroupsListAll acc.source
    "networkSecurityGroups" "listAll" location
  match looked.1 with
  | none => { acc := { results := acc.results, source := looked.2 }, rcb := 1 }
  | some entry =>
    if entryFailed entry then
      { acc := { results := addResult acc.results 3
                    ("Unable to query for Network Security Groups: " ++ h.addError entry)
                    (some location) none
                 source := looked.2 }
        rcb := 1 }
    else
      let groups := entry.data.getD []
      if groups.length = 0 then
        { acc := { results := addResult acc.results 0 "No security groups found"
                      (some location) none
                   source := looked.2 }
          rcb := 1 }
      else
        { acc := { results := h.findOpenPorts groups ports service location acc.results
                   source := looked.2 }
          rcb := 1 }

/-- The per-location work function of `openCassandraClient`. -/
def openCassandraLocation (h : AzureHelpers) (cache : Cache) (acc : Acc) (location : String) :
    Step :=
  openPortLocation h cache [("TCP", [9042])] "Cassandra Client" acc location

/-- The per-location work function of `openMemcached`. -/
def openMemcachedLocation (h : AzureHelpers) (cache : Cache) (acc : Acc) (location : String) :
    Step :=
  openPortLocation h cache [("TCP", [11211]), ("UDP", [11211])] "Memcached" acc location

/-- The entry point `run` of `openCassandraClient`. -/
def openCassandraRun (h : AzureHelpers) (cache : Cache) (settings : Settings) :
    List Completion :=
  asyncEach (h.locationsNetworkSecurityGroups settings.govcloud) (openCassandraLocation h cache)
    (fun acc => { error := none, results := acc.results, source := acc.source })
    { results := [], source := [] }

/-- The entry point `run` of `openMemcached`. -/
def openMemcachedRun (h : AzureHelpers) (cache : Cache) (settings : Settings) :
    List Completion :=
  asyncEach (h.locationsNetworkSecurityGroups settings.govcloud) (openMemcachedLocation h cache)
    (fun acc => { error := none, results := acc.results, source := acc.source })
    { results := [], source := [] }

/-! ## Sample inputs -/

/-- A cache in which no scope was collected. -/
def emptyCache : Cache :=
  { describeSecurityGroups := fun _ => none
    listDistributions := fun _ => none
    loadBalancersListAll := fun _ => none
    serversListPostgres := fun _ => none
    virtualMachineScaleSetsListAll := fun _ => none
    networkSecurityGroupsListAll := fun _ => none }

/-- An instance of the AWS helpers: one region, an error text read from the
entry, a used-groups index holding the single identifier `sg-used`, and a
network-interface check that finds no interface with a public address and so
reports the group as OK. -/
def sampleAwsHelpers : AwsHelpers :=
  { regions := fun _ => ["us-east-1"]
    defaultRegion := fun _ => "us-east-1"
    defaultPartition := fun _ => "aws"
    addError := fun entry => jsOr entry.err "Unable to obtain data"
    getUsedSecurityGroups := fun _ results _ => (results, some ["sg-used"])
    checkNetworkInterface := fun _ _ resultString region results resource _ =>
      addResult results 0 (resultString ++ " but is not associated with a public interface")
        (some region) (some resource) }

/-- An instance of the Azure helpers: one location per service, an error text
read from the entry, and a port scan that reports nothing. -/
def sampleAzureHelpers : AzureHelpers :=
  { locationsLoadBalancers := fun _ => ["eastus"]
    locationsServers := fun _ => ["eastus"]
    locationsVirtualMachineScaleSets := fun _ => ["eastus"]
    locationsNetworkSecurityGroups := fun _ => ["eastus"]
    addError := fun entry => jsOr entry.err "Unable to obtain data"
    findOpenPorts := fun _ _ _ _ results => results }

/-- Both modes disabled: the configuration of the default settings. -/
def modesOff : Config := { ec2_skip_unused_groups := false, check_network_interface := false }

/-- Usage-check mode alone. -/
def skipUnusedOnly : Config :=
  { ec2_skip_unused_groups := true, check_network_interface := false }

/-- Usage-check mode together with the network-interface cross-check. -/
def bothModes : Config := { ec2_skip_unused_groups := true, check_network_interface := true }

/-- A cache whose only collected scope is the security groups of `us-east-1`. -/
def cacheOfGroups (groups : List SecurityGroup) : Cache :=
  { emptyCache with
    describeSecurityGroups := fun region =>
      if region = "us-east-1" then some { err := none, data := some groups } else none }

/-- A cache in which every call of every scope failed with `AccessDenied`. -/
def failingCache : Cache :=
  { describeSecurityGroups := fun _ => some { err := some "AccessDenied", data := none }
    listDistributions := fun _ => some { err := some "AccessDenied", data := none }
    loadBalancersListAll := fun _ => some { err := some "AccessDenied", data := none }
    serversListPostgres := fun _ => some { err := some "AccessDenied", data := none }
    virtualMachineScaleSetsListAll := fun _ => some { err := some "AccessDenied", data := none }
    networkSecurityGroupsListAll := fun _ => some { err := some "AccessDenied", data := none } }

/-- Settings that enable the usage-check mode only. -/
def skipSettings : Settings :=
  { ec2_skip_unused_groups := some "true", check_network_interface := none, govcloud := none }

/-- Settings that enable both modes. -/
def bothSettings : Settings :=
  { ec2_skip_unused_groups := some "true", check_network_interface := some "true",
    govcloud := none }

/-- The empty state in which every run starts. -/
def startAcc : Acc := { results := [], source := [] }

/-- A permission that opens everything to every IPv4 address. -/
def openToWorld : IpPermission :=
  { IpProtocol := "-1", FromPort := none, ToPort := none,
    IpRanges := [{ CidrIp := "0.0.0.0/0" }], Ipv6Ranges := [] }

/-- A permission for HTTPS from every IPv4 and IPv6 address. -/
def httpsOnly : IpPermission :=
  { IpProtocol := "tcp", FromPort := some 443, ToPort := some 443,
    IpRanges := [{ CidrIp := "0.0.0.0/0" }], Ipv6Ranges := [{ CidrIpv6 := "::/0" }] }

/-- A permission for every protocol and port from half of the IPv4 space. -/
def halfSpace : IpPermission :=
  { IpProtocol := "-1", FromPort := none, ToPort := none,
    IpRanges := [{ CidrIp := "0.0.0.0/1" }], Ipv6Ranges := [{ CidrIpv6 := "::/1" }] }

/-- A TCP permission whose port range starts at an explicit 0 and has no end. -/
def fromZero : IpPermission :=
  { IpProtocol := "tcp", FromPort := some 0, ToPort := none,
    IpRanges := [{ CidrIp := "0.0.0.0/0" }], Ipv6Ranges := [{ CidrIpv6 := "::/0" }] }

/-- A TCP permission for all ports from every IPv6 address. -/
def allTcpV6 : IpPermission :=
  { IpProtocol := "tcp", FromPort := none, ToPort := some 65535,
    IpRanges := [], Ipv6Ranges := [{ CidrIpv6 := "::/0" }] }

/-- A security group with the given identifier and permissions. -/
def sampleGroup (groupId : String) (permissions : List IpPermission) : SecurityGroup :=
  { GroupId := some groupId, GroupName := some "web", OwnerId := some "111122223333",
    IpPermissions := permissions }

/-! ## Which descriptors a permission contributes -/

/-- The descriptors that a permission contributes through an IPv4 range equal
to the unrestricted block. -/
def v4Hit (p : IpPermission) (d : String) : Prop :=
  (∃ r ∈ p.IpRanges, r.CidrIp = "0.0.0.0/0") ∧
    ((allPortsOpen p = true ∧ d = "all ports open to 0.0.0.0/0") ∨
      (p.IpProtocol = "-1" ∧ d = "all protocols open to 0.0.0.0/0"))

/-- The descriptors that a permission contributes through an IPv6 range equal
to the unrestricted block. -/
def v6Hit (p : IpPermission) (d : String) : Prop :=
  (∃ r ∈ p.Ipv6Ranges, r.CidrIpv6 = "::/0") ∧
    ((allPortsOpen p = true ∧ d = "all ports open to ::/0") ∨
      (p.IpProtocol = "-1" ∧ d = "all protocols open to ::/0"))

/-! ## Further definitions used by the statements -/

/-- The strings matched by the `regex` that the `settings` block declares for both
options, `^(true|false)$`. -/
def matchesSettingRegex (value : String) : Bool :=
  value == "true" || value == "false"

/-- The finding that the loop body pushes for a group when neither mode is in
effect: lines 125 to 129 for a group with descriptors, lines 132 to 134 for a
group without. -/
def modesOffFinding (awsOrGov region : String) (group : SecurityGroup) : Finding :=
  if groupStrings group.IpPermissions ≠ [] then
    { status := 2
      message := flaggedMessage "Security group: " group (groupStrings group.IpPermissions)
      region := some region
      resource := some (groupArn awsOrGov region group) }
  else
    { status := 0
      message := "Security group: " ++ jsStr group.GroupId ++ " (" ++ jsStr group.GroupName ++
        ") does not have all ports or protocols open to the public"
      region := some region
      resource := some (groupArn awsOrGov region group) }

/-- The findings of a run in which the scope `failed` is the only one with an error
entry: one completion without error, whose findings are those that each scope
before `failed` produces when run alone, then one finding of status 3 scoped to
`failed`, then those of each scope after it; the findings of the other scopes
have status 0 or 2, so the finding of status 3 is the only one. -/
def SiblingsUnaffected (completions : List Completion) (alone : String → List Finding)
    (before : List String) (failed : String) (after : List String) : Prop :=
  ∃ (failure : Finding) (source : List CacheKey),
    completions =
      [{ error := none
         results := before.flatMap alone ++ failure :: after.flatMap alone
         source := source }] ∧
    failure.status = 3 ∧ failure.region = some failed ∧
    (∀ s ∈ before ++ after, ∀ f ∈ alone s, f.status = 0 ∨ f.status = 2) ∧
    (before.flatMap alone ++ failure :: after.flatMap alone).filter
      (fun f => f.status == 3) = [failure]

/-- A cache whose only collected scope is the distributions of `us-east-1`. -/
def cacheOfDistributions (distributions : List Distribution) : Cache :=
  { emptyCache with
    listDistributions := fun region =>
      if region = "us-east-1" then some { err := none, data := some distributions } else none }

/-- A cache whose only collected scope is the load balancers of `eastus`. -/
def cacheOfLoadBalancers (loadBalancers : List LoadBalancer) : Cache :=
  { emptyCache with
    loadBalancersListAll := fun location =>
      if location = "eastus" then some { err := none, data := some loadBalancers } else none }

/-- A cache in which every call of every scope succeeded with an empty list. -/
def cacheOfNothing : Cache :=
  { describeSecurityGroups := fun _ => some { err := none, data := some [] }
    listDistributions := fun _ => some { err := none, data := some [] }
    loadBalancersListAll := fun _ => some { err := none, data := some [] }
    serversListPostgres := fun _ => some { err := none, data := some [] }
    virtualMachineScaleSetsListAll := fun _ => some { err := none, data := some [] }
    networkSecurityGroupsListAll := fun _ => some { err := none, data := some [] } }

/-- Settings in which `ec2_skip_unused_groups` holds a value that its pattern
rejects. -/
def malformedSettings : Settings :=
  { ec2_skip_unused_groups := some "yes", check_network_interface := none, govcloud := none }

/-- The default settings: no option supplied. -/
def noSettings : Settings :=
  { ec2_skip_unused_groups := none, check_network_interface := none, govcloud := none }

/-- A wildcard-protocol permission restricted to port 443. -/
def anyProtocolOnePort : IpPermission :=
  { IpProtocol := "-1", FromPort := some 443, ToPort := some 443,
    IpRanges := [{ CidrIp := "0.0.0.0/0" }], Ipv6Ranges := [] }

/-- A wildcard-protocol permission restricted to the single port 0. -/
def anyProtocolPortZero : IpPermission :=
  { IpProtocol := "-1", FromPort := some 0, ToPort := some 0,
    IpRanges := [{ CidrIp := "0.0.0.0/0" }], Ipv6Ranges := [] }

/-- An instance of the Azure helpers with three locations for every service. -/
def threeLocationHelpers : AzureHelpers :=
  { sampleAzureHelpers with
    locationsLoadBalancers := fun _ => ["eastus", "westus", "northeurope"]
    locationsServers := fun _ => ["eastus", "westus", "northeurope"]
    locationsVirtualMachineScaleSets := fun _ => ["eastus", "westus", "northeurope"] }

/-- A cache of load balancers in which `eastus` holds one tagged load balancer,
`westus` failed with `Throttled`, and `northeurope` holds an empty list. -/
def oneFailureCache : Cache :=
  { emptyCache with
    loadBalancersListAll := fun location =>
      if location = "eastus" then
        some { err := none, data := some [{ id := some "lb-1", tags := some [("env", "prod")] }] }
      else if location = "westus" then some { err := some "Throttled", data := none }
      else some { err := none, data := some [] } }

/-- An instance of the AWS helpers whose used-groups index is empty. -/
def emptyIndexHelpers : AwsHelpers :=
  { sampleAwsHelpers with getUsedSecurityGroups := fun _ results _ => (results, some []) }

/-! ## Lemmas on the descriptor scan -/

theorem mem_pushUnique (strings : List String) (s d : String) :
    d ∈ pushUnique strings s ↔ d ∈ strings ∨ d = s := by
  unfold pushUnique
  split
  · constructor
    · intro h; exact Or.inl h
    · rintro (h | h)
      · exact h
      · subst h; assumption
  · simp

theorem mem_scanIpRange (p : IpPermission) (strings : List String) (r : IpRange) (d : String) :
    d ∈ scanIpRange p strings r ↔
      d ∈ strings ∨ (r.CidrIp = "0.0.0.0/0" ∧
        ((allPortsOpen p = true ∧ d = "all ports open to 0.0.0.0/0") ∨
          (p.IpProtocol = "-1" ∧ d = "all protocols open to 0.0.0.0/0"))) := by
  unfold scanIpRange
  by_cases hr : r.CidrIp = "0.0.0.0/0" <;> by_cases ha : allPortsOpen p = true <;>
    by_cases hp : p.IpProtocol = "-1" <;> simp [hr, ha, hp, mem_pushUnique, or_assoc]

theorem mem_scanIpv6Range (p : IpPermission) (strings : List String) (r : Ipv6Range)
    (d : String) :
    d ∈ scanIpv6Range p strings r ↔
      d ∈ strings ∨ (r.CidrIpv6 = "::/0" ∧
        ((allPortsOpen p = true ∧ d = "all ports open to ::/0") ∨
          (p.IpProtocol = "-1" ∧ d = "all protocols open to ::/0"))) := by
  unfold scanIpv6Range
  by_cases hr : r.CidrIpv6 = "::/0" <;> by_cases ha : allPortsOpen p = true <;>
    by_cases hp : p.IpProtocol = "-1" <;> simp [hr, ha, hp, mem_pushUnique, or_assoc]

theorem mem_foldl_scanIpRange (p : IpPermission) (d : String) (ranges : List IpRange) :
    ∀ strings : List String, d ∈ ranges.foldl (scanIpRange p) strings ↔
      d ∈ strings ∨ ((∃ r ∈ ranges, r.CidrIp = "0.0.0.0/0") ∧
        ((allPortsOpen p = true ∧ d = "all ports open to 0.0.0.0/0") ∨
          (p.IpProtocol = "-1" ∧ d = "all protocols open to 0.0.0.0/0"))) := by
  induction ranges with
  | nil => intro strings; simp
  | cons r rest ih =>
    intro strings
    rw [List.foldl_cons, ih, mem_scanIpRange]
    simp only [List.exists_mem_cons_iff]
    tauto

theorem mem_foldl_scanIpv6Range (p : IpPermission) (d : String) (ranges : List Ipv6Range) :
    ∀ strings : List String, d ∈ ranges.foldl (scanIpv6Range p) strings ↔
      d ∈ strings ∨ ((∃ r ∈ ranges, r.CidrIpv6 = "::/0") ∧
        ((allPortsOpen p = true ∧ d = "all ports open to ::/0") ∨
          (p.IpProtocol = "-1" ∧ d = "all protocols open to ::/0"))) := by
  induction ranges with
  | nil => intro strings; simp
  | cons r rest ih =>
    intro strings
    rw [List.foldl_cons, ih, mem_scanIpv6Range]
    simp only [List.exists_mem_cons_iff]
    tauto

theorem mem_scanPermission (strings : List String) (p : IpPermission) (d : String) :
    d ∈ scanPermission strings p ↔ d ∈ strings ∨ v4Hit p d ∨ v6Hit p d := by
  unfold scanPermission v4Hit v6Hit
  rw [mem_foldl_scanIpv6Range, mem_foldl_scanIpRange]
  exact or_assoc

theorem mem_foldl_scanPermission (d : String) (permissions : List IpPermission) :
    ∀ strings : List String, d ∈ permissions.foldl scanPermission strings ↔
      d ∈ strings ∨ ∃ p ∈ permissions, v4Hit p d ∨ v6Hit p d := by
  induction permissions with
  | nil => intro strings; simp
  | cons p rest ih =>
    intro strings
    rw [List.foldl_cons, ih, mem_scanPermission]
    simp only [List.exists_mem_cons_iff, or_assoc]

theorem mem_groupStrings (d : String) (permissions : List IpPermission) :
    d ∈ groupStrings permissions ↔ ∃ p ∈ permissions, v4Hit p d ∨ v6Hit p d := by
  unfold groupStrings
  rw [mem_foldl_scanPermission]
  simp

theorem groupStrings_eq_nil (permissions : List IpPermission)
    (hnone : ∀ p ∈ permissions, ∀ d, ¬ (v4Hit p d ∨ v6Hit p d)) :
    groupStrings permissions = [] := by
  apply List.eq_nil_iff_forall_not_mem.mpr
  intro d hd
  obtain ⟨p, hp, hhit⟩ := (mem_groupStrings d permissions).mp hd
  exact hnone p hp d hhit

theorem checkGroup_of_nil (h : AwsHelpers) (cache : Cache) (config : Config)
    (awsOrGov region : String) (usedGroups : Option (List String)) (results : List Finding)
    (group : SecurityGroup) (hnil : groupStrings group.IpPermissions = []) :
    checkGroup h cache config awsOrGov region usedGroups results group =
      results ++ [{ status := 0
                    message := "Security group: " ++ jsStr group.GroupId ++ " (" ++
                      jsStr group.GroupName ++
                      ") does not have all ports or protocols open to the public"
                    region := some region
                    resource := some (groupArn awsOrGov region group) }] := by
  simp [checkGroup, hnil, addResult]

theorem allPortsOpen_iff (p : IpPermission) :
    allPortsOpen p = true ↔
      (p.FromPort = none ∨ p.FromPort = some 0) ∧
        (p.ToPort = none ∨ p.ToPort = some 0 ∨ p.ToPort = some 65535) := by
  unfold allPortsOpen
  cases hf : p.FromPort <;> cases ht : p.ToPort <;> simp [truthyNum]

/-! ## Claims on the descriptor scan of openAllPortsProtocols -/

/-- C1: a group none of whose IPv4 ranges is exactly `0.0.0.0/0` and none of whose
IPv6 ranges is exactly `::/0` has an empty descriptor list, whatever the ports
and protocols of its permissions are, and the finding pushed for it has status 0
with the message that nothing is open to the public, in every mode. -/
theorem no_unrestricted_cidr_reported_ok (h : AwsHelpers) (cache : Cache) (config : Config)
    (awsOrGov region : String) (usedGroups : Option (List String)) (results : List Finding)
    (group : SecurityGroup)
    (h4 : ∀ p ∈ group.IpPermissions, ∀ r ∈ p.IpRanges, r.CidrIp ≠ "0.0.0.0/0")
    (h6 : ∀ p ∈ group.IpPermissions, ∀ r ∈ p.Ipv6Ranges, r.CidrIpv6 ≠ "::/0") :
    groupStrings group.IpPermissions = [] ∧
      checkGroup h cache config awsOrGov region usedGroups results group =
        results ++ [{ status := 0
                      message := "Security group: " ++ jsStr group.GroupId ++ " (" ++
                        jsStr group.GroupName ++
                        ") does not have all ports or protocols open to the public"
                      region := some region
                      resource := some (groupArn awsOrGov region group) }] := by
  have hnil : groupStrings group.IpPermissions = [] := by
    apply groupStrings_eq_nil
    rintro p hp d (⟨⟨r, hr, heq⟩, _⟩ | ⟨⟨r, hr, heq⟩, _⟩)
    · exact h4 p hp r hr heq
    · exact h6 p hp r hr heq
  exact ⟨hnil, checkGroup_of_nil h cache config awsOrGov region usedGroups results group hnil⟩

/-- Witness of C1: a wildcard permission on the strict subsets `0.0.0.0/1` and
`::/1`, with both modes enabled. -/
theorem no_unrestricted_cidr_reported_ok_witness :
    (∀ p ∈ (sampleGroup "sg-1" [halfSpace]).IpPermissions, ∀ r ∈ p.IpRanges,
        r.CidrIp ≠ "0.0.0.0/0") ∧
      (∀ p ∈ (sampleGroup "sg-1" [halfSpace]).IpPermissions, ∀ r ∈ p.Ipv6Ranges,
        r.CidrIpv6 ≠ "::/0") ∧
      groupStrings [halfSpace] = [] ∧
      checkGroup sampleAwsHelpers emptyCache bothModes "aws" "us-east-1" (some ["sg-used"]) []
          (sampleGroup "sg-1" [halfSpace]) =
        [{ status := 0
           message :=
             "Security group: sg-1 (web) does not have all ports or protocols open to the public"
           region := some "us-east-1"
           resource := some "arn:aws:ec2:us-east-1:111122223333:security-group/sg-1" }] :=
  ⟨by decide, by decide,
    no_unrestricted_cidr_reported_ok sampleAwsHelpers emptyCache bothModes "aws" "us-east-1"
      (some ["sg-used"]) [] (sampleGroup "sg-1" [halfSpace]) (by decide) (by decide)⟩

/-- C2: a group whose single permission has protocol `-1`, no FromPort, no ToPort,
the IPv4 ranges `['0.0.0.0/0']` and no IPv6 range has exactly the two descriptors
`all ports open to 0.0.0.0/0` and `all protocols open to 0.0.0.0/0`, in this
order; with both modes disabled its finding has status 2 and a message that
ends in `has all ports open to 0.0.0.0/0 and all protocols open to 0.0.0.0/0`. -/
theorem wildcard_rule_yields_both_descriptors (h : AwsHelpers) (cache : Cache)
    (config : Config) (awsOrGov region : String) (usedGroups : Option (List String))
    (results : List Finding) (group : SecurityGroup)
    (hperm : group.IpPermissions =
      [{ IpProtocol := "-1", FromPort := none, ToPort := none,
         IpRanges := [{ CidrIp := "0.0.0.0/0" }], Ipv6Ranges := [] }])
    (hskip : config.ec2_skip_unused_groups = false)
    (heni : config.check_network_interface = false) :
    groupStrings group.IpPermissions =
        ["all ports open to 0.0.0.0/0", "all protocols open to 0.0.0.0/0"] ∧
      checkGroup h cache config awsOrGov region usedGroups results group =
        results ++ [{ status := 2
                      message := "Security group: " ++ jsStr group.GroupId ++ " (" ++
                        jsStr group.GroupName ++ ") " ++
                        "has all ports open to 0.0.0.0/0 and all protocols open to 0.0.0.0/0"
                      region := some region
                      resource := some (groupArn awsOrGov region group) }] := by
  have hs : groupStrings group.IpPermissions =
      ["all ports open to 0.0.0.0/0", "all protocols open to 0.0.0.0/0"] := by
    rw [hperm]; decide
  have hj : ") has " ++ jsJoin " and "
      ["all ports open to 0.0.0.0/0", "all protocols open to 0.0.0.0/0"] =
      ") " ++ "has all ports open to 0.0.0.0/0 and all protocols open to 0.0.0.0/0" := by
    decide
  refine ⟨hs, ?_⟩
  simp only [checkGroup, hs, unusedGroup, hskip, heni, flaggedMessage, addResult,
    String.append_assoc, hj]
  simp

/-- Witness of C2: the group `sg-1` with the single permission `openToWorld`. -/
theorem wildcard_rule_yields_both_descriptors_witness :
    groupStrings (sampleGroup "sg-1" [openToWorld]).IpPermissions =
        ["all ports open to 0.0.0.0/0", "all protocols open to 0.0.0.0/0"] ∧
      checkGroup sampleAwsHelpers emptyCache modesOff "aws" "us-east-1" none []
          (sampleGroup "sg-1" [openToWorld]) =
        [{ status := 2
           message := "Security group: sg-1 (web) has all ports open to 0.0.0.0/0 and " ++
             "all protocols open to 0.0.0.0/0"
           region := some "us-east-1"
           resource := some "arn:aws:ec2:us-east-1:111122223333:security-group/sg-1" }] :=
  wildcard_rule_yields_both_descriptors sampleAwsHelpers emptyCache modesOff "aws" "us-east-1"
    none [] (sampleGroup "sg-1" [openToWorld]) rfl rfl rfl

/-- C3, counterexample: the TCP permission `fromZero` has FromPort explicitly 0 and no
ToPort, so its FromPort is not unset, and yet it produces `all ports open to
0.0.0.0/0` and `all ports open to ::/0`: the test `!permission.FromPort` is also
true of the number 0. -/
theorem explicit_zero_from_port_is_flagged :
    fromZero.FromPort = some 0 ∧ fromZero.ToPort = none ∧
      (∃ r ∈ fromZero.IpRanges, r.CidrIp = "0.0.0.0/0") ∧
      "all ports open to 0.0.0.0/0" ∈ scanPermission [] fromZero ∧
      "all ports open to ::/0" ∈ scanPermission [] fromZero ∧
      ¬ ("all ports open to 0.0.0.0/0" ∈ scanPermission [] fromZero ↔
          (fromZero.FromPort = none ∧
            (fromZero.ToPort = none ∨ fromZero.ToPort = some 65535))) := by
  decide

/-- C3, amended: for a permission with an IPv4 range equal to `0.0.0.0/0` and a
ToPort that is not the number 0, `all ports open to 0.0.0.0/0` is produced for
that permission if and only if FromPort is unset or 0 and ToPort is unset or
65535; the same holds for `::/0` and `all ports open to ::/0`. -/
theorem all_ports_iff_from_port_falsy (p : IpPermission) (hto : p.ToPort ≠ some 0) :
    ((∃ r ∈ p.IpRanges, r.CidrIp = "0.0.0.0/0") →
        ("all ports open to 0.0.0.0/0" ∈ scanPermission [] p ↔
          (p.FromPort = none ∨ p.FromPort = some 0) ∧
            (p.ToPort = none ∨ p.ToPort = some 65535))) ∧
      ((∃ r ∈ p.Ipv6Ranges, r.CidrIpv6 = "::/0") →
        ("all ports open to ::/0" ∈ scanPermission [] p ↔
          (p.FromPort = none ∨ p.FromPort = some 0) ∧
            (p.ToPort = none ∨ p.ToPort = some 65535))) := by
  have hports : allPortsOpen p = true ↔
      (p.FromPort = none ∨ p.FromPort = some 0) ∧
        (p.ToPort = none ∨ p.ToPort = some 65535) := by
    rw [allPortsOpen_iff]
    constructor
    · rintro ⟨hf, ht | ht | ht⟩
      · exact ⟨hf, Or.inl ht⟩
      · exact absurd ht hto
      · exact ⟨hf, Or.inr ht⟩
    · rintro ⟨hf, ht | ht⟩
      · exact ⟨hf, Or.inl ht⟩
      · exact ⟨hf, Or.inr (Or.inr ht)⟩
  have d1 : ¬ ("all ports open to 0.0.0.0/0" = "all protocols open to 0.0.0.0/0") := by decide
  have d2 : ¬ ("all ports open to 0.0.0.0/0" = "all ports open to ::/0") := by decide
  have d3 : ¬ ("all ports open to 0.0.0.0/0" = "all protocols open to ::/0") := by decide
  have d4 : ¬ ("all ports open to ::/0" = "all ports open to 0.0.0.0/0") := by decide
  have d5 : ¬ ("all ports open to ::/0" = "all protocols open to 0.0.0.0/0") := by decide
  have d6 : ¬ ("all ports open to ::/0" = "all protocols open to ::/0") := by decide
  constructor
  · intro h4
    rw [mem_scanPermission, ← hports]
    simp only [v4Hit, v6Hit, d1, d2, d3, and_false, or_false, and_true, List.not_mem_nil,
      false_or]
    exact ⟨fun hh => hh.2, fun hh => ⟨h4, hh⟩⟩
  · intro h6
    rw [mem_scanPermission, ← hports]
    simp only [v4Hit, v6Hit, d4, d5, d6, and_false, or_false, and_true, List.not_mem_nil,
      false_or]
    exact ⟨fun hh => hh.2, fun hh => ⟨h6, hh⟩⟩

/-- Witness of the amended C3: the permission `fromZero`, whose ToPort is unset. -/
theorem all_ports_iff_from_port_falsy_witness :
    fromZero.ToPort ≠ some 0 ∧
      ("all ports open to 0.0.0.0/0" ∈ scanPermission [] fromZero ↔
        (fromZero.FromPort = none ∨ fromZero.FromPort = some 0) ∧
          (fromZero.ToPort = none ∨ fromZero.ToPort = some 65535)) :=
  ⟨by decide,
    (all_ports_iff_from_port_falsy fromZero (by decide)).1
      ⟨{ CidrIp := "0.0.0.0/0" }, by decide, rfl⟩⟩

/-- C4: a descriptor that names `::/0` is in the descriptor list of a group only if
some permission has an IPv6 range exactly `::/0`, and a descriptor that names
`0.0.0.0/0` only if some permission has an IPv4 range exactly `0.0.0.0/0`; a
single permission with a protocol other than `-1`, no FromPort, ToPort 65535, no
IPv4 range and the IPv6 ranges `['::/0']` yields exactly `all ports open to ::/0`. -/
theorem stacks_classified_independently (permissions : List IpPermission) (d : String)
    (hd : d ∈ groupStrings permissions) :
    ((d = "all ports open to ::/0" ∨ d = "all protocols open to ::/0") →
        ∃ p ∈ permissions, ∃ r ∈ p.Ipv6Ranges, r.CidrIpv6 = "::/0") ∧
      ((d = "all ports open to 0.0.0.0/0" ∨ d = "all protocols open to 0.0.0.0/0") →
        ∃ p ∈ permissions, ∃ r ∈ p.IpRanges, r.CidrIp = "0.0.0.0/0") ∧
      (∀ protocol : String, protocol ≠ "-1" →
        groupStrings [{ IpProtocol := protocol, FromPort := none, ToPort := some 65535,
                        IpRanges := [], Ipv6Ranges := [{ CidrIpv6 := "::/0" }] }] =
          ["all ports open to ::/0"]) := by
  obtain ⟨p, hp, hhit⟩ := (mem_groupStrings d permissions).mp hd
  refine ⟨?_, ?_, ?_⟩
  · intro hv6
    rcases hhit with ⟨_, ⟨_, h1⟩ | ⟨_, h1⟩⟩ | ⟨hex, _⟩
    · subst h1; rcases hv6 with h2 | h2 <;> exact absurd h2 (by decide)
    · subst h1; rcases hv6 with h2 | h2 <;> exact absurd h2 (by decide)
    · exact ⟨p, hp, hex⟩
  · intro hv4
    rcases hhit with ⟨hex, _⟩ | ⟨_, ⟨_, h1⟩ | ⟨_, h1⟩⟩
    · exact ⟨p, hp, hex⟩
    · subst h1; rcases hv4 with h2 | h2 <;> exact absurd h2 (by decide)
    · subst h1; rcases hv4 with h2 | h2 <;> exact absurd h2 (by decide)
  · intro protocol hproto
    simp [groupStrings, scanPermission, scanIpv6Range, allPortsOpen, truthyNum, pushUnique,
      hproto]

/-- Witness of C4: the descriptor of the group whose only permission is `allTcpV6`
comes from an IPv6 range. -/
theorem stacks_classified_independently_witness :
    "all ports open to ::/0" ∈ groupStrings [allTcpV6] ∧
      (∃ p ∈ [allTcpV6], ∃ r ∈ p.Ipv6Ranges, r.CidrIpv6 = "::/0") ∧
      groupStrings [allTcpV6] = ["all ports open to ::/0"] :=
  ⟨by decide,
    (stacks_classified_independently [allTcpV6] "all ports open to ::/0" (by decide)).1
      (Or.inl rfl),
    (stacks_classified_independently [allTcpV6] "all ports open to ::/0" (by decide)).2.2
      "tcp" (by decide)⟩

/-- C5: a permission whose protocol is not `-1` and whose FromPort is set to a
non-zero port adds no descriptor, whatever its IPv4 and IPv6 ranges are; a group
made only of such permissions has an empty descriptor list and its finding has
status 0, in every mode. -/
theorem specific_port_never_flagged (h : AwsHelpers) (cache : Cache) (config : Config)
    (awsOrGov region : String) (usedGroups : Option (List String)) (results : List Finding)
    (group : SecurityGroup)
    (hspec : ∀ p ∈ group.IpPermissions,
      p.IpProtocol ≠ "-1" ∧ ∃ port : Int, p.FromPort = some port ∧ port ≠ 0) :
    (∀ p ∈ group.IpPermissions, ∀ strings : List String, scanPermission strings p = strings) ∧
      groupStrings group.IpPermissions = [] ∧
      checkGroup h cache config awsOrGov region usedGroups results group =
        results ++ [{ status := 0
                      message := "Security group: " ++ jsStr group.GroupId ++ " (" ++
                        jsStr group.GroupName ++
                        ") does not have all ports or protocols open to the public"
                      region := some region
                      resource := some (groupArn awsOrGov region group) }] := by
  have hports : ∀ p ∈ group.IpPermissions, allPortsOpen p = false := by
    intro p hp
    obtain ⟨_, port, hfrom, hport⟩ := hspec p hp
    simp [allPortsOpen, truthyNum, hfrom, hport]
  have hstep : ∀ p ∈ group.IpPermissions, ∀ strings : List String,
      scanPermission strings p = strings := by
    intro p hp strings
    have hproto := (hspec p hp).1
    have hpo := hports p hp
    have h4 : ∀ (ranges : List IpRange) (acc : List String),
        ranges.foldl (scanIpRange p) acc = acc := by
      intro ranges
      induction ranges with
      | nil => intro acc; rfl
      | cons r rest ih => intro acc; simp [scanIpRange, hpo, hproto, ih]
    have h6 : ∀ (ranges : List Ipv6Range) (acc : List String),
        ranges.foldl (scanIpv6Range p) acc = acc := by
      intro ranges
      induction ranges with
      | nil => intro acc; rfl
      | cons r rest ih => intro acc; simp [scanIpv6Range, hpo, hproto, ih]
    unfold scanPermission
    rw [h6, h4]
  have hnil : groupStrings group.IpPermissions = [] := by
    apply groupStrings_eq_nil
    intro p hp d hhit
    have hproto := (hspec p hp).1
    have hpo := hports p hp
    rcases hhit with ⟨_, ⟨ha, _⟩ | ⟨hb, _⟩⟩ | ⟨_, ⟨ha, _⟩ | ⟨hb, _⟩⟩
    · rw [hpo] at ha; exact Bool.noConfusion ha
    · exact hproto hb
    · rw [hpo] at ha; exact Bool.noConfusion ha
    · exact hproto hb
  exact ⟨hstep, hnil,
    checkGroup_of_nil h cache config awsOrGov region usedGroups results group hnil⟩

/-- Witness of C5: a group whose only permission is HTTPS open to `0.0.0.0/0` and
`::/0`, in usage-check mode with the group absent from the index. -/
theorem specific_port_never_flagged_witness :
    (∀ p ∈ (sampleGroup "sg-1" [httpsOnly]).IpPermissions,
        p.IpProtocol ≠ "-1" ∧ ∃ port : Int, p.FromPort = some port ∧ port ≠ 0) ∧
      groupStrings [httpsOnly] = [] ∧
      checkGroup sampleAwsHelpers emptyCache skipUnusedOnly "aws" "us-east-1"
          (some ["sg-used"]) [] (sampleGroup "sg-1" [httpsOnly]) =
        [{ status := 0
           message :=
             "Security group: sg-1 (web) does not have all ports or protocols open to the public"
           region := some "us-east-1"
           resource := some "arn:aws:ec2:us-east-1:111122223333:security-group/sg-1" }] :=
  have hyp : ∀ p ∈ (sampleGroup "sg-1" [httpsOnly]).IpPermissions,
      p.IpProtocol ≠ "-1" ∧ ∃ port : Int, p.FromPort = some port ∧ port ≠ 0 := by
    intro p hp
    have hp2 : p = httpsOnly := by simpa [sampleGroup] using hp
    subst hp2
    exact ⟨by decide, 443, rfl, by decide⟩
  ⟨hyp,
    (specific_port_never_flagged sampleAwsHelpers emptyCache skipUnusedOnly "aws" "us-east-1"
      (some ["sg-used"]) [] (sampleGroup "sg-1" [httpsOnly]) hyp).2⟩

/-! ## Claims on the optional modes of openAllPortsProtocols -/

theorem checkGroup_of_flagged (h : AwsHelpers) (cache : Cache) (config : Config)
    (awsOrGov region : String) (usedGroups : Option (List String)) (results : List Finding)
    (group : SecurityGroup) (hflag : groupStrings group.IpPermissions ≠ []) :
    checkGroup h cache config awsOrGov region usedGroups results group =
      if unusedGroup config usedGroups group then
        addResult results 1 ("Security Group: " ++ jsStr group.GroupId ++ " is not in use")
          (some region) (some (groupArn awsOrGov region group))
      else if config.check_network_interface then
        h.checkNetworkInterface group.GroupId group.GroupName
          (flaggedMessage "Security group:" group (groupStrings group.IpPermissions)) region
          results (groupArn awsOrGov region group) cache
      else
        addResult results 2
          (flaggedMessage "Security group: " group (groupStrings group.IpPermissions))
          (some region) (some (groupArn awsOrGov region group)) := by
  have hlen : (groupStrings group.IpPermissions).length ≠ 0 := by
    intro h0; exact hflag (List.length_eq_zero.mp h0)
  simp only [checkGroup]
  rw [if_pos hlen]

theorem unusedGroup_iff (config : Config) (used : List String) (group : SecurityGroup)
    (groupId : String) (hid : group.GroupId = some groupId) (hne : groupId ≠ "") :
    unusedGroup config (some used) group = true ↔
      config.ec2_skip_unused_groups = true ∧ used ≠ [] ∧ groupId ∉ used := by
  simp [unusedGroup, hid, truthyStr, jsStr, hne, and_assoc]

/-- C6, counterexample: in usage-check mode the flagged group `sg-1` is absent from
the empty index, yet its finding has status 2, not 1; and with the
network-interface check also enabled the flagged group `sg-used`, which is in
the index, gets no status 2 finding from the rule: the outcome is the one of
`helpers.checkNetworkInterface`. -/
theorem empty_index_never_downgrades :
    groupStrings (sampleGroup "sg-1" [openToWorld]).IpPermissions ≠ [] ∧
      "sg-1" ∉ ([] : List String) ∧
      checkGroup sampleAwsHelpers emptyCache skipUnusedOnly "aws" "us-east-1" (some []) []
          (sampleGroup "sg-1" [openToWorld]) =
        [{ status := 2
           message := "Security group: sg-1 (web) has all ports open to 0.0.0.0/0 and " ++
             "all protocols open to 0.0.0.0/0"
           region := some "us-east-1"
           resource := some "arn:aws:ec2:us-east-1:111122223333:security-group/sg-1" }] ∧
      "sg-used" ∈ ["sg-used"] ∧
      checkGroup sampleAwsHelpers emptyCache bothModes "aws" "us-east-1" (some ["sg-used"]) []
          (sampleGroup "sg-used" [openToWorld]) =
        sampleAwsHelpers.checkNetworkInterface (some "sg-used") (some "web")
          ("Security group:sg-used (web) has all ports open to 0.0.0.0/0 and " ++
            "all protocols open to 0.0.0.0/0")
          "us-east-1" [] "arn:aws:ec2:us-east-1:111122223333:security-group/sg-used"
          emptyCache := by
  decide

/-- C6, amended: in usage-check mode, for a flagged group with a non-empty
identifier and every usage index: if the index is non-empty and does not contain
the identifier, the finding has status 1 and a message containing `not in use`;
if the index contains the identifier and the network-interface check is
disabled, the finding has status 2. -/
theorem usage_check_decides_flagged_group (h : AwsHelpers) (cache : Cache) (config : Config)
    (awsOrGov region : String) (used : List String) (results : List Finding)
    (group : SecurityGroup) (groupId : String)
    (hskip : config.ec2_skip_unused_groups = true)
    (hflag : groupStrings group.IpPermissions ≠ [])
    (hid : group.GroupId = some groupId) (hne : groupId ≠ "") :
    (used ≠ [] → groupId ∉ used →
        checkGroup h cache config awsOrGov region (some used) results group =
          results ++ [{ status := 1
                        message := "Security Group: " ++ groupId ++ " is not in use"
                        region := some region
                        resource := some (groupArn awsOrGov region group) }] ∧
        ∃ pre post : String,
          "Security Group: " ++ groupId ++ " is not in use" = pre ++ "not in use" ++ post) ∧
      (groupId ∈ used → config.check_network_interface = false →
        checkGroup h cache config awsOrGov region (some used) results group =
          results ++ [{ status := 2
                        message := flaggedMessage "Security group: " group
                          (groupStrings group.IpPermissions)
                        region := some region
                        resource := some (groupArn awsOrGov region group) }]) := by
  constructor
  · intro hused hnot
    have hu : unusedGroup config (some used) group = true :=
      (unusedGroup_iff config used group groupId hid hne).mpr ⟨hskip, hused, hnot⟩
    constructor
    · rw [checkGroup_of_flagged h cache config awsOrGov region (some used) results group hflag,
        if_pos hu]
      simp [addResult, hid, jsStr]
    · refine ⟨"Security Group: " ++ groupId ++ " is ", "", ?_⟩
      have hsplit : " is not in use" = " is " ++ "not in use" := by decide
      rw [hsplit]
      simp only [String.append_assoc, String.append_empty]
  · intro hmem heni
    have hu : ¬ (unusedGroup config (some used) group = true) := by
      rw [unusedGroup_iff config used group groupId hid hne]
      intro hh; exact hh.2.2 hmem
    rw [checkGroup_of_flagged h cache config awsOrGov region (some used) results group hflag,
      if_neg hu, heni]
    simp [addResult]

/-- Witness of the amended C6: the flagged group `sg-1` against the index that
holds only `sg-used`. -/
theorem usage_check_decides_flagged_group_witness :
    skipUnusedOnly.ec2_skip_unused_groups = true ∧
      groupStrings (sampleGroup "sg-1" [openToWorld]).IpPermissions ≠ [] ∧
      checkGroup sampleAwsHelpers emptyCache skipUnusedOnly "aws" "us-east-1"
          (some ["sg-used"]) [] (sampleGroup "sg-1" [openToWorld]) =
        [{ status := 1
           message := "Security Group: sg-1 is not in use"
           region := some "us-east-1"
           resource := some "arn:aws:ec2:us-east-1:111122223333:security-group/sg-1" }] :=
  ⟨rfl, by decide,
    ((usage_check_decides_flagged_group sampleAwsHelpers emptyCache skipUnusedOnly "aws"
      "us-east-1" ["sg-used"] [] (sampleGroup "sg-1" [openToWorld]) "sg-1" rfl (by decide) rfl
      (by decide)).1 (by decide) (by decide)).1⟩

/-- C7, the code at the failing input: with `ec2_skip_unused_groups` set to `true`
and the used-groups index holding only `sg-used`, the group `sg-idle`, which has
no permission at all, still goes through the port check and its single finding
has status 0, not 1. -/
theorem unused_group_without_exposure_is_ok :
    (mkConfig skipSettings).ec2_skip_unused_groups = true ∧
      "sg-idle" ∉ ["sg-used"] ∧
      openAllPortsRun sampleAwsHelpers (cacheOfGroups [sampleGroup "sg-idle" []])
          skipSettings =
        [{ error := none
           results :=
             [{ status := 0
                message := "Security group: sg-idle (web) does not have all ports or " ++
                  "protocols open to the public"
                region := some "us-east-1"
                resource := some "arn:aws:ec2:us-east-1:111122223333:security-group/sg-idle" }]
           source :=
             [{ service := "ec2", operation := "describeSecurityGroups",
                scope := "us-east-1" }] }] := by
  decide

/-- C8, counterexample: the settings with both options set to `true` put both modes
in effect, and in one run over the flagged groups `sg-idle` and `sg-used` the
first is decided by the usage index (status 1) and the second by
`helpers.checkNetworkInterface`, which receives the array holding the first
finding. -/
theorem both_modes_decide_in_one_run :
    mkConfig bothSettings = bothModes ∧
      (openAllPortsRegion sampleAwsHelpers
          (cacheOfGroups [sampleGroup "sg-idle" [openToWorld], sampleGroup "sg-used" [openToWorld]])
          (mkConfig bothSettings) "aws" startAcc "us-east-1").acc.results =
        sampleAwsHelpers.checkNetworkInterface (some "sg-used") (some "web")
          ("Security group:sg-used (web) has all ports open to 0.0.0.0/0 and " ++
            "all protocols open to 0.0.0.0/0")
          "us-east-1"
          [{ status := 1
             message := "Security Group: sg-idle is not in use"
             region := some "us-east-1"
             resource := some "arn:aws:ec2:us-east-1:111122223333:security-group/sg-idle" }]
          "arn:aws:ec2:us-east-1:111122223333:security-group/sg-used"
          (cacheOfGroups
            [sampleGroup "sg-idle" [openToWorld], sampleGroup "sg-used" [openToWorld]]) := by
  decide

/-- C8, amended: each of the two modes is in effect exactly when its own setting is
the string `true`, so both can be in effect in one run; for every flagged group
exactly one of three branches decides: the usage index when the condition of
lines 117 and 118 holds (status 1, without any call of the network-interface
check), else the network-interface check when that mode is enabled (the rule
pushes nothing itself), else status 2. -/
theorem one_branch_per_flagged_group (h : AwsHelpers) (cache : Cache) (settings : Settings)
    (awsOrGov region : String) (usedGroups : Option (List String)) (results : List Finding)
    (group : SecurityGroup) (hflag : groupStrings group.IpPermissions ≠ []) :
    ((mkConfig settings).ec2_skip_unused_groups = true ↔
        settings.ec2_skip_unused_groups = some "true") ∧
      ((mkConfig settings).check_network_interface = true ↔
        settings.check_network_interface = some "true") ∧
      ((unusedGroup (mkConfig settings) usedGroups group = true ∧
          checkGroup h cache (mkConfig settings) awsOrGov region usedGroups results group =
            results ++ [{ status := 1
                          message := "Security Group: " ++ jsStr group.GroupId ++
                            " is not in use"
                          region := some region
                          resource := some (groupArn awsOrGov region group) }]) ∨
        (unusedGroup (mkConfig settings) usedGroups group = false ∧
          (mkConfig settings).check_network_interface = true ∧
          checkGroup h cache (mkConfig settings) awsOrGov region usedGroups results group =
            h.checkNetworkInterface group.GroupId group.GroupName
              (flaggedMessage "Security group:" group (groupStrings group.IpPermissions))
              region results (groupArn awsOrGov region group) cache) ∨
        (unusedGroup (mkConfig settings) usedGroups group = false ∧
          (mkConfig settings).check_network_interface = false ∧
          checkGroup h cache (mkConfig settings) awsOrGov region usedGroups results group =
            results ++ [{ status := 2
                          message := flaggedMessage "Security group: " group
                            (groupStrings group.IpPermissions)
                          region := some region
                          resource := some (groupArn awsOrGov region group) }])) := by
  have hor : ∀ x : Option String, jsOr x "false" = "true" ↔ x = some "true" := by
    intro x
    cases x with
    | none => simp [jsOr]
    | some v =>
      by_cases hv : v = ""
      · subst hv; simp [jsOr]
      · simp [jsOr, hv]
  refine ⟨?_, ?_, ?_⟩
  · simp [mkConfig, defaultSkipUnusedGroups, hor]
  · simp [mkConfig, defaultCheckNetworkInterface, hor]
  · rw [checkGroup_of_flagged h cache (mkConfig settings) awsOrGov region usedGroups results
      group hflag]
    cases hu : unusedGroup (mkConfig settings) usedGroups group
    · cases hc : (mkConfig settings).check_network_interface
      · right; right
        simp [addResult]
      · right; left
        simp
    · left
      simp [addResult]

/-- Witness of the amended C8: the flagged group `sg-used` under the settings that
enable both modes; the third part holds by its second branch. -/
theorem one_branch_per_flagged_group_witness :
    groupStrings (sampleGroup "sg-used" [openToWorld]).IpPermissions ≠ [] ∧
      ((mkConfig bothSettings).ec2_skip_unused_groups = true ↔
        bothSettings.ec2_skip_unused_groups = some "true") ∧
      ((mkConfig bothSettings).check_network_interface = true ↔
        bothSettings.check_network_interface = some "true") :=
  ⟨by decide,
    (one_branch_per_flagged_group sampleAwsHelpers emptyCache bothSettings "aws" "us-east-1"
      (some ["sg-used"]) [] (sampleGroup "sg-used" [openToWorld]) (by decide)).1,
    (one_branch_per_flagged_group sampleAwsHelpers emptyCache bothSettings "aws" "us-east-1"
      (some ["sg-used"]) [] (sampleGroup "sg-used" [openToWorld]) (by decide)).2.1⟩

/-! ## Claims on the cache protocol of all seven rules -/

theorem entryFailed_iff {α : Type} (entry : CacheEntry α) :
    entryFailed entry = true ↔ (truthyStr entry.err = true ∨ entry.data = none) := by
  cases hd : entry.data <;> simp [entryFailed, hd]

/-- C9: for each of the seven rules and every scope whose lookup returns absent, the
per-scope work leaves the `results` array as it was (so no finding, of status 3
or any other, is added for the scope), records the consulted key, and returns
control through exactly one call of its continuation. -/
theorem absent_entry_emits_nothing (ha : AwsHelpers) (hz : AzureHelpers) (cache : Cache)
    (config : Config) (awsOrGov : String) (acc : Acc) (scope : String) :
    (cache.describeSecurityGroups scope = none →
        openAllPortsRegion ha cache config awsOrGov acc scope =
          { acc := { results := acc.results
                     source := acc.source ++ [{ service := "ec2"
                                                operation := "describeSecurityGroups"
                                                scope := scope }] }
            rcb := 1 }) ∧
      (cache.listDistributions scope = none →
        cloudfrontScope ha cache acc scope =
          { acc := { results := acc.results
                     source := acc.source ++ [{ service := "cloudfront"
                                                operation := "listDistributions"
                                                scope := scope }] }
            rcb := 1 }) ∧
      (cache.loadBalancersListAll scope = none →
        lbHasTagsLocation hz cache acc scope =
          { acc := { results := acc.results
                     source := acc.source ++ [{ service := "loadBalancers"
                                                operation := "listAll"
                                                scope := scope }] }
            rcb := 1 }) ∧
      (cache.serversListPostgres scope = none →
        postgresLocation hz cache acc scope =
          { acc := { results := acc.results
                     source := acc.source ++ [{ service := "servers"
                                                operation := "listPostgres"
                                                scope := scope }] }
            rcb := 1 }) ∧
      (cache.virtualMachineScaleSetsListAll scope = none →
        autoOsUpgradesLocation hz cache acc scope =
          { acc := { results := acc.results
                     source := acc.source ++ [{ service := "virtualMachineScaleSets"
                                                operation := "listAll"
                                                scope := scope }] }
            rcb := 1 }) ∧
      (cache.networkSecurityGroupsListAll scope = none →
        openCassandraLocation hz cache acc scope =
            { acc := { results := acc.results
                       source := acc.source ++ [{ service := "networkSecurityGroups"
                                                  operation := "listAll"
                                                  scope := scope }] }
              rcb := 1 } ∧
          openMemcachedLocation hz cache acc scope =
            { acc := { results := acc.results
                       source := acc.source ++ [{ service := "networkSecurityGroups"
                                                  operation := "listAll"
                                                  scope := scope }] }
              rcb := 1 }) := by
  refine ⟨?_, ?_, ?_, ?_, ?_, ?_⟩
  · intro habs; simp [openAllPortsRegion, addSource, habs]
  · intro habs; simp [cloudfrontScope, addSource, habs]
  · intro habs; simp [lbHasTagsLocation, addSource, habs]
  · intro habs; simp [postgresLocation, addSource, habs]
  · intro habs; simp [autoOsUpgradesLocation, addSource, habs]
  · intro habs
    simp [openCassandraLocation, openMemcachedLocation, openPortLocation, addSource, habs]

/-- Witness of C9: the empty cache, with a finding already in the `results` array. -/
theorem absent_entry_emits_nothing_witness :
    emptyCache.describeSecurityGroups "us-east-1" = none ∧
      emptyCache.loadBalancersListAll "us-east-1" = none ∧
      (openAllPortsRegion sampleAwsHelpers emptyCache bothModes "aws"
          { results := [{ status := 2, message := "earlier", region := none, resource := none }]
            source := [] } "us-east-1").acc.results =
        [{ status := 2, message := "earlier", region := none, resource := none }] ∧
      (lbHasTagsLocation sampleAzureHelpers emptyCache startAcc "us-east-1").acc.results = [] :=
  ⟨rfl, rfl,
    congrArg (fun step => step.acc.results)
      ((absent_entry_emits_nothing sampleAwsHelpers sampleAzureHelpers emptyCache bothModes
        "aws"
        { results := [{ status := 2, message := "earlier", region := none, resource := none }]
          source := [] } "us-east-1").1 rfl),
    congrArg (fun step => step.acc.results)
      ((absent_entry_emits_nothing sampleAwsHelpers sampleAzureHelpers emptyCache bothModes
        "aws" startAcc "us-east-1").2.2.1 rfl)⟩

/-- C10: for each of the seven rules and every scope whose entry is present and
holds an error or no data, the per-scope work adds exactly one finding to the
`results` array, with status 3 and the rule's `Unable to query` lead followed by
what `helpers.addError` returns for the entry, adds no other finding, and
returns control through exactly one call of its continuation.  The finding is
scoped to the region or location, except in `cloudfrontWafEnabled`, which
passes no region. -/
theorem failed_entry_emits_one_dependency_error (ha : AwsHelpers) (hz : AzureHelpers)
    (cache : Cache) (config : Config) (awsOrGov : String) (acc : Acc) (scope : String) :
    (∀ entry, cache.describeSecurityGroups scope = some entry →
        (truthyStr entry.err = true ∨ entry.data = none) →
        openAllPortsRegion ha cache config awsOrGov acc scope =
          { acc := { results := acc.results ++
                       [{ status := 3
                          message := "Unable to query for security groups: " ++
                            ha.addError entry
                          region := some scope
                          resource := none }]
                     source := acc.source ++ [{ service := "ec2"
                                                operation := "describeSecurityGroups"
                                                scope := scope }] }
            rcb := 1 }) ∧
      (∀ entry, cache.listDistributions scope = some entry →
        (truthyStr entry.err = true ∨ entry.data = none) →
        cloudfrontScope ha cache acc scope =
          { acc := { results := acc.results ++
                       [{ status := 3
                          message := "Unable to query for CloudFront distributions: " ++
                            ha.addError entry
                          region := none
                          resource := none }]
                     source := acc.source ++ [{ service := "cloudfront"
                                                operation := "listDistributions"
                                                scope := scope }] }
            rcb := 1 }) ∧
      (∀ entry, cache.loadBalancersListAll scope = some entry →
        (truthyStr entry.err = true ∨ entry.data = none) →
        lbHasTagsLocation hz cache acc scope =
          { acc := { results := acc.results ++
                       [{ status := 3
                          message := "Unable to query Load Balancers: " ++ hz.addError entry
                          region := some scope
                          resource := none }]
                     source := acc.source ++ [{ service := "loadBalancers"
                                                operation := "listAll"
                                                scope := scope }] }
            rcb := 1 }) ∧
      (∀ entry, cache.serversListPostgres scope = some entry →
        (truthyStr entry.err = true ∨ entry.data = none) →
        postgresLocation hz cache acc scope =
          { acc := { results := acc.results ++
                       [{ status := 3
                          message := "Unable to query for PostgreSQL servers: " ++
                            hz.addError entry
                          region := some scope
                          resource := none }]
                     source := acc.source ++ [{ service := "servers"
                                                operation := "listPostgres"
                                                scope := scope }] }
            rcb := 1 }) ∧
      (∀ entry, cache.virtualMachineScaleSetsListAll scope = some entry →
        (truthyStr entry.err = true ∨ entry.data = none) →
        autoOsUpgradesLocation hz cache acc scope =
          { acc := { results := acc.results ++
                       [{ status := 3
                          message := "Unable to query for Virtual Machine Scale Sets: " ++
                            hz.addError entry
                          region := some scope
                          resource := none }]
                     source := acc.source ++ [{ service := "virtualMachineScaleSets"
                                                operation := "listAll"
                                                scope := scope }] }
            rcb := 1 }) ∧
      (∀ entry, cache.networkSecurityGroupsListAll scope = some entry →
        (truthyStr entry.err = true ∨ entry.data = none) →
        openCassandraLocation hz cache acc scope =
            { acc := { results := acc.results ++
                         [{ status := 3
                            message := "Unable to query for Network Security Groups: " ++
                              hz.addError entry
                            region := some scope
                            resource := none }]
                       source := acc.source ++ [{ service := "networkSecurityGroups"
                                                  operation := "listAll"
                                                  scope := scope }] }
              rcb := 1 } ∧
          openMemcachedLocation hz cache acc scope =
            { acc := { results := acc.results ++
                         [{ status := 3
                            message := "Unable to query for Network Security Groups: " ++
                              hz.addError entry
                            region := some scope
                            resource := none }]
                       source := acc.source ++ [{ service := "networkSecurityGroups"
                                                  operation := "listAll"
                                                  scope := scope }] }
              rcb := 1 }) := by
  refine ⟨?_, ?_, ?_, ?_, ?_, ?_⟩
  · intro entry hentry hfail
    have hf := (entryFailed_iff entry).mpr hfail
    simp [openAllPortsRegion, addSource, addResult, hentry, hf]
  · intro entry hentry hfail
    have hf := (entryFailed_iff entry).mpr hfail
    simp [cloudfrontScope, addSource, addResult, hentry, hf]
  · intro entry hentry hfail
    have hf := (entryFailed_iff entry).mpr hfail
    simp [lbHasTagsLocation, addSource, addResult, hentry, hf]
  · intro entry hentry hfail
    have hf := (entryFailed_iff entry).mpr hfail
    simp [postgresLocation, addSource, addResult, hentry, hf]
  · intro entry hentry hfail
    have hf := (entryFailed_iff entry).mpr hfail
    simp [autoOsUpgradesLocation, addSource, addResult, hentry, hf]
  · intro entry hentry hfail
    have hf := (entryFailed_iff entry).mpr hfail
    simp [openCassandraLocation, openMemcachedLocation, openPortLocation, addSource, addResult,
      hentry, hf]

/-- Witness of C10: the cache in which every call failed with `AccessDenied`, for
`openAllPortsProtocols` in `us-east-1` and for `lbHasTags` in `eastus`. -/
theorem failed_entry_emits_one_dependency_error_witness :
    failingCache.describeSecurityGroups "us-east-1" =
        some { err := some "AccessDenied", data := none } ∧
      (openAllPortsRegion sampleAwsHelpers failingCache modesOff "aws" startAcc
          "us-east-1").acc.results =
        [{ status := 3
           message := "Unable to query for security groups: AccessDenied"
           region := some "us-east-1"
           resource := none }] ∧
      (lbHasTagsLocation sampleAzureHelpers failingCache startAcc "eastus").acc.results =
        [{ status := 3
           message := "Unable to query Load Balancers: AccessDenied"
           region := some "eastus"
           resource := none }] :=
  ⟨rfl,
    congrArg (fun step => step.acc.results)
      ((failed_entry_emits_one_dependency_error sampleAwsHelpers sampleAzureHelpers failingCache
        modesOff "aws" startAcc "us-east-1").1
        { err := some "AccessDenied", data := none } rfl (Or.inr rfl)),
    congrArg (fun step => step.acc.results)
      ((failed_entry_emits_one_dependency_error sampleAwsHelpers sampleAzureHelpers failingCache
        modesOff "aws" startAcc "eastus").2.2.1
        { err := some "AccessDenied", data := none } rfl (Or.inl (by decide)))⟩

/-! ## Lemmas on the dispatcher and on the work functions -/

theorem eachScope_all_once (worker : Acc → String → Step)
    (hw : ∀ acc scope, (worker acc scope).rcb = 1) :
    ∀ (scopes : List String) (acc : Acc),
      (eachScope worker scopes acc).2.all (fun n => n == 1) = true := by
  intro scopes
  induction scopes with
  | nil => intro acc; rfl
  | cons scope rest ih =>
    intro acc
    simp only [eachScope, List.all_cons, hw, ih, beq_self_eq_true, Bool.and_self]

theorem asyncEach_once (worker : Acc → String → Step) (final : Acc → Completion)
    (hw : ∀ acc scope, (worker acc scope).rcb = 1) (scopes : List String) (acc : Acc) :
    asyncEach scopes worker final acc = [final (eachScope worker scopes acc).1] := by
  simp only [asyncEach, eachScope_all_once worker hw scopes acc, if_true]

theorem openAllPortsRegion_rcb (h : AwsHelpers) (cache : Cache) (config : Config)
    (awsOrGov : String) (acc : Acc) (region : String) :
    (openAllPortsRegion h cache config awsOrGov acc region).rcb = 1 := by
  unfold openAllPortsRegion
  simp only
  split
  · rfl
  · split
    · rfl
    · split <;> rfl

theorem cloudfrontScope_rcb (h : AwsHelpers) (cache : Cache) (acc : Acc) (region : String) :
    (cloudfrontScope h cache acc region).rcb = 1 := by
  unfold cloudfrontScope
  simp only
  split
  · rfl
  · split
    · rfl
    · split <;> rfl

theorem lbHasTagsLocation_rcb (h : AzureHelpers) (cache : Cache) (acc : Acc)
    (location : String) : (lbHasTagsLocation h cache acc location).rcb = 1 := by
  unfold lbHasTagsLocation
  simp only
  split
  · rfl
  · split
    · rfl
    · split <;> rfl

theorem postgresLocation_rcb (h : AzureHelpers) (cache : Cache) (acc : Acc)
    (location : String) : (postgresLocation h cache acc location).rcb = 1 := by
  unfold postgresLocation
  simp only
  split
  · rfl
  · split
    · rfl
    · split <;> rfl

theorem autoOsUpgradesLocation_rcb (h : AzureHelpers) (cache : Cache) (acc : Acc)
    (location : String) : (autoOsUpgradesLocation h cache acc location).rcb = 1 := by
  unfold autoOsUpgradesLocation
  simp only
  split
  · rfl
  · split
    · rfl
    · split <;> rfl

theorem openPortLocation_rcb (h : AzureHelpers) (cache : Cache)
    (ports : List (String × List Nat)) (service : String) (acc : Acc) (location : String) :
    (openPortLocation h cache ports service acc location).rcb = 1 := by
  unfold openPortLocation
  simp only
  split
  · rfl
  · split
    · rfl
    · split <;> rfl

theorem jsOr_false_eq_true_iff (x : Option String) : jsOr x "false" = "true" ↔ x = some "true" := by
  cases x with
  | none => simp [jsOr]
  | some v =>
    by_cases hv : v = ""
    · subst hv; simp [jsOr]
    · simp [jsOr, hv]

theorem security_group_lead_ne (rest : String) :
    "Security group: " ++ rest ≠ "No security groups present" := by
  intro h
  have h2 := congrArg (fun s => s.data.head?) h
  simp at h2

/-! ## Claims on the harness contract -/

/-- C11: for each of the seven rules and every scope whose entry is a success with
an empty list, the per-scope work adds exactly one finding, of status 0, with
the rule's informational message, and nothing else.  In the five rules whose
per-resource findings are pushed by the rule file itself, no finding pushed for
a compliant resource carries that message.  The finding is scoped to the region
or location, except in `cloudfrontWafEnabled`, which passes no region. -/
theorem empty_list_emits_one_informational_ok (ha : AwsHelpers) (hz : AzureHelpers)
    (cache : Cache) (config : Config) (awsOrGov : String) (acc : Acc) (scope : String) :
    (∀ entry, cache.describeSecurityGroups scope = some entry → truthyStr entry.err = false →
        entry.data = some [] →
        openAllPortsRegion ha cache config awsOrGov acc scope =
          { acc := { results := acc.results ++
                       [{ status := 0
                          message := "No security groups present"
                          region := some scope
                          resource := none }]
                     source := acc.source ++ [{ service := "ec2"
                                                operation := "describeSecurityGroups"
                                                scope := scope }] }
            rcb := 1 }) ∧
      (∀ entry, cache.listDistributions scope = some entry → truthyStr entry.err = false →
        entry.data = some [] →
        cloudfrontScope ha cache acc scope =
          { acc := { results := acc.results ++
                       [{ status := 0
                          message := "No CloudFront distributions found"
                          region := none
                          resource := none }]
                     source := acc.source ++ [{ service := "cloudfront"
                                                operation := "listDistributions"
                                                scope := scope }] }
            rcb := 1 }) ∧
      (∀ entry, cache.loadBalancersListAll scope = some entry → truthyStr entry.err = false →
        entry.data = some [] →
        lbHasTagsLocation hz cache acc scope =
          { acc := { results := acc.results ++
                       [{ status := 0
                          message := "No existing Load Balancers found"
                          region := some scope
                          resource := none }]
                     source := acc.source ++ [{ service := "loadBalancers"
                                                operation := "listAll"
                                                scope := scope }] }
            rcb := 1 }) ∧
      (∀ entry, cache.serversListPostgres scope = some entry → truthyStr entry.err = false →
        entry.data = some [] →
        postgresLocation hz cache acc scope =
          { acc := { results := acc.results ++
                       [{ status := 0
                          message := "No PostgreSQL servers found"
                          region := some scope
                          resource := none }]
                     source := acc.source ++ [{ service := "servers"
                                                operation := "listPostgres"
                                                scope := scope }] }
            rcb := 1 }) ∧
      (∀ entry, cache.virtualMachineScaleSetsListAll scope = some entry → truthyStr entry.err = false →
        entry.data = some [] →
        autoOsUpgradesLocation hz cache acc scope =
          { acc := { results := acc.results ++
                       [{ status := 0
                          message := "No existing Virtual Machine Scale Sets found"
                          region := some scope
                          resource := none }]
                     source := acc.source ++ [{ service := "virtualMachineScaleSets"
                                                operation := "listAll"
                                                scope := scope }] }
            rcb := 1 }) ∧
      (∀ entry, cache.networkSecurityGroupsListAll scope = some entry → truthyStr entry.err = false →
        entry.data = some [] →
        openCassandraLocation hz cache acc scope =
          { acc := { results := acc.results ++
                       [{ status := 0
                          message := "No security groups found"
                          region := some scope
                          resource := none }]
                     source := acc.source ++ [{ service := "networkSecurityGroups"
                                                operation := "listAll"
                                                scope := scope }] }
            rcb := 1 }) ∧
      (∀ entry, cache.networkSecurityGroupsListAll scope = some entry → truthyStr entry.err = false →
        entry.data = some [] →
        openMemcachedLocation hz cache acc scope =
          { acc := { results := acc.results ++
                       [{ status := 0
                          message := "No security groups found"
                          region := some scope
                          resource := none }]
                     source := acc.source ++ [{ service := "networkSecurityGroups"
                                                operation := "listAll"
                                                scope := scope }] }
            rcb := 1 }) ∧
      (∀ (usedGroups : Option (List String)) (group : SecurityGroup),
        groupStrings group.IpPermissions = [] →
        ∀ f ∈ checkGroup ha cache config awsOrGov scope usedGroups [] group,
          f.status = 0 ∧ f.message ≠ "No security groups present") ∧
      (∀ (distribution : Distribution), ∀ f ∈ checkDistribution [] distribution,
        f.message ≠ "No CloudFront distributions found") ∧
      (∀ (lb : LoadBalancer), ∀ f ∈ checkLoadBalancer scope [] lb,
        f.message ≠ "No existing Load Balancers found") ∧
      (∀ (server : PostgresServer), ∀ f ∈ checkPostgresServer scope [] server,
        f.message ≠ "No PostgreSQL servers found") ∧
      (∀ (scaleSet : VirtualMachineScaleSet), ∀ f ∈ checkScaleSet scope [] scaleSet,
        f.message ≠ "No existing Virtual Machine Scale Sets found") := by
  have hok : ∀ {α : Type} (entry : CacheEntry α), truthyStr entry.err = false →
      entry.data = some [] → entryFailed entry = false := by
    intro α entry herr hdata
    simp [entryFailed, herr, hdata]
  refine ⟨?_, ?_, ?_, ?_, ?_, ?_, ?_, ?_, ?_, ?_, ?_, ?_⟩
  · intro entry hentry herr hdata
    simp [openAllPortsRegion, addSource, addResult, hentry, hok entry herr hdata, hdata]
  · intro entry hentry herr hdata
    simp [cloudfrontScope, addSource, addResult, hentry, hok entry herr hdata, hdata]
  · intro entry hentry herr hdata
    simp [lbHasTagsLocation, addSource, addResult, hentry, hok entry herr hdata, hdata]
  · intro entry hentry herr hdata
    simp [postgresLocation, addSource, addResult, hentry, hok entry herr hdata, hdata]
  · intro entry hentry herr hdata
    simp [autoOsUpgradesLocation, addSource, addResult, hentry, hok entry herr hdata, hdata]
  · intro entry hentry herr hdata
    simp [openCassandraLocation, openPortLocation, addSource, addResult, hentry,
      hok entry herr hdata, hdata]
  · intro entry hentry herr hdata
    simp [openMemcachedLocation, openPortLocation, addSource, addResult, hentry,
      hok entry herr hdata, hdata]
  · intro usedGroups group hnil f hf
    rw [checkGroup_of_nil ha cache config awsOrGov scope usedGroups [] group hnil] at hf
    simp only [List.nil_append, List.mem_singleton] at hf
    subst hf
    refine ⟨rfl, ?_⟩
    simp only [String.append_assoc]
    exact security_group_lead_ne _
  · intro distribution f hf
    unfold checkDistribution addResult at hf
    split at hf <;> simp only [List.nil_append, List.mem_singleton] at hf <;> subst hf <;>
      dsimp only <;> decide
  · intro lb f hf
    unfold checkLoadBalancer addResult at hf
    split at hf
    · simp at hf
    · split at hf
      · split at hf <;> simp only [List.nil_append, List.mem_singleton] at hf <;> subst hf <;>
          dsimp only <;> decide
      · simp only [List.nil_append, List.mem_singleton] at hf
        subst hf
        dsimp only
        decide
  · intro server f hf
    unfold checkPostgresServer addResult at hf
    split at hf
    · split at hf <;> simp only [List.nil_append, List.mem_singleton] at hf <;> subst hf <;>
        dsimp only <;> decide
    · simp only [List.nil_append, List.mem_singleton] at hf
      subst hf
      dsimp only
      decide
  · intro scaleSet f hf
    unfold checkScaleSet addResult at hf
    split at hf <;> simp only [List.nil_append, List.mem_singleton] at hf <;> subst hf <;>
      dsimp only <;> decide

/-- Witness of C11: the cache in which every call returned an empty list, for
`openAllPortsProtocols` in `us-east-1` and for `autoOsUpgradesEnabled` in `eastus`. -/
theorem empty_list_emits_one_informational_ok_witness :
    cacheOfNothing.describeSecurityGroups "us-east-1" = some { err := none, data := some [] } ∧
      (openAllPortsRegion sampleAwsHelpers cacheOfNothing bothModes "aws" startAcc
          "us-east-1").acc.results =
        [{ status := 0, message := "No security groups present", region := some "us-east-1",
           resource := none }] ∧
      (autoOsUpgradesLocation sampleAzureHelpers cacheOfNothing startAcc "eastus").acc.results =
        [{ status := 0, message := "No existing Virtual Machine Scale Sets found",
           region := some "eastus", resource := none }] :=
  ⟨rfl,
    congrArg (fun step => step.acc.results)
      ((empty_list_emits_one_informational_ok sampleAwsHelpers sampleAzureHelpers cacheOfNothing
        bothModes "aws" startAcc "us-east-1").1 { err := none, data := some [] } rfl rfl rfl),
    congrArg (fun step => step.acc.results)
      ((empty_list_emits_one_informational_ok sampleAwsHelpers sampleAzureHelpers cacheOfNothing
        bothModes "aws" startAcc "eastus").2.2.2.2.1 { err := none, data := some [] } rfl rfl
        rfl)⟩

/-- C12: for each of the two options, the mode is in effect exactly when the
supplied value is the string `true`; when the option is absent, or its value
does not match `^(true|false)$`, the flag is the one that the default `false`
gives, that is the mode is disabled; and the run completes with one callback
whose first argument is null. -/
theorem option_flags_fall_back_to_default (h : AwsHelpers) (cache : Cache)
    (settings : Settings) :
    ((mkConfig settings).ec2_skip_unused_groups = true ↔
        settings.ec2_skip_unused_groups = some "true") ∧
      ((mkConfig settings).check_network_interface = true ↔
        settings.check_network_interface = some "true") ∧
      ((settings.ec2_skip_unused_groups = none ∨
          ∃ value, settings.ec2_skip_unused_groups = some value ∧
            matchesSettingRegex value = false) →
        (mkConfig settings).ec2_skip_unused_groups =
            decide (defaultSkipUnusedGroups = "true") ∧
          (mkConfig settings).ec2_skip_unused_groups = false) ∧
      ((settings.check_network_interface = none ∨
          ∃ value, settings.check_network_interface = some value ∧
            matchesSettingRegex value = false) →
        (mkConfig settings).check_network_interface =
            decide (defaultCheckNetworkInterface = "true") ∧
          (mkConfig settings).check_network_interface = false) ∧
      (∃ (results : List Finding) (source : List CacheKey),
        openAllPortsRun h cache settings =
          [{ error := none, results := results, source := source }]) := by
  have hflag1 : (mkConfig settings).ec2_skip_unused_groups = true ↔
      settings.ec2_skip_unused_groups = some "true" := by
    simp [mkConfig, defaultSkipUnusedGroups, jsOr_false_eq_true_iff]
  have hflag2 : (mkConfig settings).check_network_interface = true ↔
      settings.check_network_interface = some "true" := by
    simp [mkConfig, defaultCheckNetworkInterface, jsOr_false_eq_true_iff]
  have hd1 : decide (defaultSkipUnusedGroups = "true") = false := by decide
  have hd2 : decide (defaultCheckNetworkInterface = "true") = false := by decide
  have hbad : ∀ x : Option String,
      (x = none ∨ ∃ value, x = some value ∧ matchesSettingRegex value = false) →
        x ≠ some "true" := by
    rintro x (hx | ⟨value, hx, hv⟩) hx2
    · rw [hx] at hx2; exact Option.noConfusion hx2
    · rw [hx] at hx2
      have hv2 : value = "true" := Option.some.inj hx2
      subst hv2
      exact absurd hv (by decide)
  refine ⟨hflag1, hflag2, ?_, ?_, ?_⟩
  · intro hx
    have hoff : (mkConfig settings).ec2_skip_unused_groups = false := by
      cases hc : (mkConfig settings).ec2_skip_unused_groups
      · rfl
      · exact absurd (hflag1.mp hc) (hbad _ hx)
    exact ⟨by rw [hoff, hd1], hoff⟩
  · intro hx
    have hoff : (mkConfig settings).check_network_interface = false := by
      cases hc : (mkConfig settings).check_network_interface
      · rfl
      · exact absurd (hflag2.mp hc) (hbad _ hx)
    exact ⟨by rw [hoff, hd2], hoff⟩
  · have hrun := asyncEach_once
      (openAllPortsRegion h cache (mkConfig settings) (h.defaultPartition settings))
      (fun acc => ({ error := none, results := acc.results, source := acc.source } : Completion))
      (fun acc scope => openAllPortsRegion_rcb h cache _ _ acc scope) (h.regions settings)
      { results := [], source := [] }
    exact ⟨_, _, hrun⟩

/-- Witness of C12: the value `yes` for `ec2_skip_unused_groups` leaves the mode
disabled. -/
theorem option_flags_fall_back_to_default_witness :
    (∃ value, malformedSettings.ec2_skip_unused_groups = some value ∧
        matchesSettingRegex value = false) ∧
      (mkConfig malformedSettings).ec2_skip_unused_groups = false :=
  ⟨⟨"yes", rfl, by decide⟩,
    ((option_flags_fall_back_to_default sampleAwsHelpers emptyCache malformedSettings).2.2.1
      (Or.inr ⟨"yes", rfl, by decide⟩)).2⟩

/-- C14: in each of the seven rules every per-scope work function invokes its
continuation exactly once on every path (the helpers being taken not to invoke
it), and `run` invokes `callback` exactly once, with a null first argument, the
accumulated findings and the source trace, for every cache and settings. -/
theorem callbacks_invoked_exactly_once (ha : AwsHelpers) (hz : AzureHelpers) (cache : Cache)
    (settings : Settings) :
    (∀ (config : Config) (awsOrGov : String) (acc : Acc) (scope : String),
        (openAllPortsRegion ha cache config awsOrGov acc scope).rcb = 1 ∧
          (cloudfrontScope ha cache acc scope).rcb = 1 ∧
          (lbHasTagsLocation hz cache acc scope).rcb = 1 ∧
          (postgresLocation hz cache acc scope).rcb = 1 ∧
          (autoOsUpgradesLocation hz cache acc scope).rcb = 1 ∧
          (openCassandraLocation hz cache acc scope).rcb = 1 ∧
          (openMemcachedLocation hz cache acc scope).rcb = 1) ∧
      cloudfrontRun ha cache settings =
        [{ error := none
           results := (cloudfrontScope ha cache startAcc (ha.defaultRegion settings)).acc.results
           source := (cloudfrontScope ha cache startAcc (ha.defaultRegion settings)).acc.source
           }] ∧
      openAllPortsRun ha cache settings =
        [{ error := none
           results := (eachScope (openAllPortsRegion ha cache (mkConfig settings) (ha.defaultPartition settings)) (ha.regions settings) startAcc).1.results
           source := (eachScope (openAllPortsRegion ha cache (mkConfig settings) (ha.defaultPartition settings)) (ha.regions settings) startAcc).1.source }] ∧
      lbHasTagsRun hz cache settings =
        [{ error := none
           results := (eachScope (lbHasTagsLocation hz cache) (hz.locationsLoadBalancers settings.govcloud) startAcc).1.results
           source := (eachScope (lbHasTagsLocation hz cache) (hz.locationsLoadBalancers settings.govcloud) startAcc).1.source }] ∧
      postgresRun hz cache settings =
        [{ error := none
           results := (eachScope (postgresLocation hz cache) (hz.locationsServers settings.govcloud) startAcc).1.results
           source := (eachScope (postgresLocation hz cache) (hz.locationsServers settings.govcloud) startAcc).1.source }] ∧
      autoOsUpgradesRun hz cache settings =
        [{ error := none
           results := (eachScope (autoOsUpgradesLocation hz cache) (hz.locationsVirtualMachineScaleSets settings.govcloud) startAcc).1.results
           source := (eachScope (autoOsUpgradesLocation hz cache) (hz.locationsVirtualMachineScaleSets settings.govcloud) startAcc).1.source }] ∧
      openCassandraRun hz cache settings =
        [{ error := none
           results := (eachScope (openCassandraLocation hz cache) (hz.locationsNetworkSecurityGroups settings.govcloud) startAcc).1.results
           source := (eachScope (openCassandraLocation hz cache) (hz.locationsNetworkSecurityGroups settings.govcloud) startAcc).1.source }] ∧
      openMemcachedRun hz cache settings =
        [{ error := none
           results := (eachScope (openMemcachedLocation hz cache) (hz.locationsNetworkSecurityGroups settings.govcloud) startAcc).1.results
           source := (eachScope (openMemcachedLocation hz cache) (hz.locationsNetworkSecurityGroups settings.govcloud) startAcc).1.source }] := by
  refine ⟨?_, ?_, ?_, ?_, ?_, ?_, ?_, ?_⟩
  · intro config awsOrGov acc scope
    exact ⟨openAllPortsRegion_rcb ha cache config awsOrGov acc scope,
      cloudfrontScope_rcb ha cache acc scope, lbHasTagsLocation_rcb hz cache acc scope,
      postgresLocation_rcb hz cache acc scope, autoOsUpgradesLocation_rcb hz cache acc scope,
      openPortLocation_rcb hz cache _ _ acc scope, openPortLocation_rcb hz cache _ _ acc scope⟩
  · simp only [cloudfrontRun, cloudfrontScope_rcb, startAcc]
    rfl
  · unfold openAllPortsRun
    exact asyncEach_once _ _ (fun acc scope => openAllPortsRegion_rcb ha cache _ _ acc scope) _ _
  · unfold lbHasTagsRun
    exact asyncEach_once _ _ (fun acc scope => lbHasTagsLocation_rcb hz cache acc scope) _ _
  · unfold postgresRun
    exact asyncEach_once _ _ (fun acc scope => postgresLocation_rcb hz cache acc scope) _ _
  · unfold autoOsUpgradesRun
    exact asyncEach_once _ _ (fun acc scope => autoOsUpgradesLocation_rcb hz cache acc scope) _ _
  · unfold openCassandraRun
    exact asyncEach_once _ _
      (fun acc scope => openPortLocation_rcb hz cache _ _ acc scope) _ _
  · unfold openMemcachedRun
    exact asyncEach_once _ _
      (fun acc scope => openPortLocation_rcb hz cache _ _ acc scope) _ _

/-! ## Lemmas on the loops over resources -/

theorem foldl_eq_append_flatMap {α : Type} (step : List Finding → α → List Finding)
    (out : α → List Finding) (hstep : ∀ results x, step results x = results ++ out x) :
    ∀ (items : List α) (results : List Finding),
      items.foldl step results = results ++ items.flatMap out := by
  intro items
  induction items with
  | nil => intro results; simp
  | cons x rest ih =>
    intro results
    rw [List.foldl_cons, hstep, ih, List.flatMap_cons, List.append_assoc]

theorem foldl_eq_append_map {α : Type} (step : List Finding → α → List Finding)
    (out : α → Finding) (hstep : ∀ results x, step results x = results ++ [out x]) :
    ∀ (items : List α) (results : List Finding),
      items.foldl step results = results ++ items.map out := by
  intro items
  induction items with
  | nil => intro results; simp
  | cons x rest ih =>
    intro results
    rw [List.foldl_cons, hstep, ih, List.map_cons, List.append_assoc]
    rfl

theorem flatMap_ite_eq_filter_map {α : Type} (keep : α → Bool) (out : α → Finding) :
    ∀ items : List α,
      items.flatMap (fun x => if keep x then [out x] else []) = (items.filter keep).map out := by
  intro items
  induction items with
  | nil => rfl
  | cons x rest ih =>
    rw [List.flatMap_cons, ih]
    cases hk : keep x <;> simp [List.filter_cons, hk]

theorem checkGroup_modes_off (h : AwsHelpers) (cache : Cache) (config : Config)
    (awsOrGov region : String) (usedGroups : Option (List String)) (results : List Finding)
    (group : SecurityGroup) (hunused : unusedGroup config usedGroups group = false)
    (heni : config.check_network_interface = false) :
    checkGroup h cache config awsOrGov region usedGroups results group =
      results ++ [modesOffFinding awsOrGov region group] := by
  by_cases hflag : groupStrings group.IpPermissions = []
  · rw [checkGroup_of_nil h cache config awsOrGov region usedGroups results group hflag]
    simp [modesOffFinding, hflag]
  · rw [checkGroup_of_flagged h cache config awsOrGov region usedGroups results group hflag]
    simp [modesOffFinding, hflag, hunused, heni, addResult]

theorem unusedGroup_of_skip_off (config : Config) (usedGroups : Option (List String))
    (group : SecurityGroup) (hskip : config.ec2_skip_unused_groups = false) :
    unusedGroup config usedGroups group = false := by
  simp [unusedGroup, hskip]

theorem modesOffFinding_status (awsOrGov region : String) (group : SecurityGroup) :
    ((modesOffFinding awsOrGov region group).status = 2 ↔
        groupStrings group.IpPermissions ≠ []) ∧
      ((modesOffFinding awsOrGov region group).status = 0 ↔
        groupStrings group.IpPermissions = []) ∧
      (modesOffFinding awsOrGov region group).region = some region ∧
      (modesOffFinding awsOrGov region group).resource =
        some (groupArn awsOrGov region group) := by
  by_cases hflag : groupStrings group.IpPermissions = [] <;> simp [modesOffFinding, hflag]

theorem nodup_pushUnique (strings : List String) (s : String) (hn : strings.Nodup) :
    (pushUnique strings s).Nodup := by
  unfold pushUnique
  split
  · exact hn
  · rename_i hmem
    rw [List.nodup_append]
    refine ⟨hn, List.nodup_singleton s, ?_⟩
    intro a ha hb
    rw [List.mem_singleton] at hb
    subst hb
    exact hmem ha

theorem nodup_scanPermission (strings : List String) (p : IpPermission) (hn : strings.Nodup) :
    (scanPermission strings p).Nodup := by
  have h4 : ∀ (ranges : List IpRange) (acc : List String), acc.Nodup →
      (ranges.foldl (scanIpRange p) acc).Nodup := by
    intro ranges
    induction ranges with
    | nil => intro acc hacc; exact hacc
    | cons r rest ih =>
      intro acc hacc
      rw [List.foldl_cons]
      apply ih
      unfold scanIpRange
      split
      · split <;> split <;> first
          | exact hacc
          | exact nodup_pushUnique _ _ hacc
          | exact nodup_pushUnique _ _ (nodup_pushUnique _ _ hacc)
      · exact hacc
  have h6 : ∀ (ranges : List Ipv6Range) (acc : List String), acc.Nodup →
      (ranges.foldl (scanIpv6Range p) acc).Nodup := by
    intro ranges
    induction ranges with
    | nil => intro acc hacc; exact hacc
    | cons r rest ih =>
      intro acc hacc
      rw [List.foldl_cons]
      apply ih
      unfold scanIpv6Range
      split
      · split <;> split <;> first
          | exact hacc
          | exact nodup_pushUnique _ _ hacc
          | exact nodup_pushUnique _ _ (nodup_pushUnique _ _ hacc)
      · exact hacc
  unfold scanPermission
  exact h6 _ _ (h4 _ _ hn)

theorem nodup_groupStrings (permissions : List IpPermission) :
    (groupStrings permissions).Nodup := by
  have hfold : ∀ (ps : List IpPermission) (acc : List String), acc.Nodup →
      (ps.foldl scanPermission acc).Nodup := by
    intro ps
    induction ps with
    | nil => intro acc hacc; exact hacc
    | cons p rest ih =>
      intro acc hacc
      rw [List.foldl_cons]
      exact ih _ (nodup_scanPermission acc p hacc)
  exact hfold permissions [] List.nodup_nil

/-! ## Claims on the per-resource findings -/

/-- C15: for a successful entry with a non-empty list of distributions,
`cloudfrontWafEnabled` hands to its callback exactly one finding per
distribution, in list order, each scoped to `global` and carrying the ARN of the
distribution, with status 2 if and only if `WebACLId` is missing or the empty
string and status 0 otherwise. -/
theorem cloudfront_one_finding_per_distribution (h : AwsHelpers) (cache : Cache)
    (settings : Settings) (entry : CacheEntry Distribution) (distributions : List Distribution)
    (hentry : cache.listDistributions (h.defaultRegion settings) = some entry)
    (herr : truthyStr entry.err = false) (hdata : entry.data = some distributions)
    (hne : distributions ≠ []) :
    cloudfrontRun h cache settings =
      [{ error := none
         results := distributions.map (fun distribution =>
           if distribution.WebACLId = none ∨ distribution.WebACLId = some "" then
             { status := 2
               message := "The CloudFront Distribution does not have WAF enabled"
               region := some "global"
               resource := distribution.ARN }
           else
             { status := 0
               message := "The CloudFront Distribution has WAF enabled"
               region := some "global"
               resource := distribution.ARN })
         source := [{ service := "cloudfront", operation := "listDistributions",
                      scope := h.defaultRegion settings }] }] := by
  have hok : entryFailed entry = false := by simp [entryFailed, herr, hdata]
  have hlen : ¬ distributions.length = 0 := by
    intro h0; exact hne (List.length_eq_zero.mp h0)
  have hstep : ∀ (results : List Finding) (distribution : Distribution),
      checkDistribution results distribution =
        results ++ [if distribution.WebACLId = none ∨ distribution.WebACLId = some "" then
             { status := 2
               message := "The CloudFront Distribution does not have WAF enabled"
               region := some "global"
               resource := distribution.ARN }
           else
             { status := 0
               message := "The CloudFront Distribution has WAF enabled"
               region := some "global"
               resource := distribution.ARN }] := by
    intro results distribution
    unfold checkDistribution addResult
    cases hw : distribution.WebACLId with
    | none => simp [truthyStr]
    | some v =>
      by_cases hv : v = ""
      · subst hv; simp [truthyStr]
      · simp [truthyStr, hv]
  have hscope : cloudfrontScope h cache { results := [], source := [] }
      (h.defaultRegion settings) =
      { acc := { results := distributions.foldl checkDistribution []
                 source := [{ service := "cloudfront", operation := "listDistributions",
                              scope := h.defaultRegion settings }] }
        rcb := 1 } := by
    simp [cloudfrontScope, addSource, hentry, hok, hdata, hlen]
  simp only [cloudfrontRun, hscope, foldl_eq_append_map checkDistribution _ hstep,
    List.nil_append]
  rfl

/-- Witness of C15: two distributions, the first with a web ACL and the second with
the empty string as `WebACLId`. -/
theorem cloudfront_one_finding_per_distribution_witness :
    cloudfrontRun sampleAwsHelpers
        (cacheOfDistributions
          [{ WebACLId := some "acl-1", ARN := some "arn:aws:cloudfront::1:distribution/A" },
           { WebACLId := some "", ARN := some "arn:aws:cloudfront::1:distribution/B" }])
        noSettings =
      [{ error := none
         results :=
           [{ status := 0
              message := "The CloudFront Distribution has WAF enabled"
              region := some "global"
              resource := some "arn:aws:cloudfront::1:distribution/A" },
            { status := 2
              message := "The CloudFront Distribution does not have WAF enabled"
              region := some "global"
              resource := some "arn:aws:cloudfront::1:distribution/B" }]
         source := [{ service := "cloudfront", operation := "listDistributions",
                      scope := "us-east-1" }] }] :=
  cloudfront_one_finding_per_distribution sampleAwsHelpers
    (cacheOfDistributions
      [{ WebACLId := some "acl-1", ARN := some "arn:aws:cloudfront::1:distribution/A" },
       { WebACLId := some "", ARN := some "arn:aws:cloudfront::1:distribution/B" }])
    noSettings
    { err := none
      data := some
        [{ WebACLId := some "acl-1", ARN := some "arn:aws:cloudfront::1:distribution/A" },
         { WebACLId := some "", ARN := some "arn:aws:cloudfront::1:distribution/B" }] }
    [{ WebACLId := some "acl-1", ARN := some "arn:aws:cloudfront::1:distribution/A" },
     { WebACLId := some "", ARN := some "arn:aws:cloudfront::1:distribution/B" }]
    rfl rfl rfl (by decide)

/-- C16: for a scope with a non-empty list of load balancers, `lbHasTags` adds
exactly one finding for each load balancer whose `id` is set and not empty, and
none for the others, in list order, scoped to the location and carrying the
`id`; the status is 0 if and only if the `tags` object exists and has at least
one entry, and 2 otherwise. -/
theorem lb_one_finding_per_identified_balancer (h : AzureHelpers) (cache : Cache) (acc : Acc)
    (location : String) (entry : CacheEntry LoadBalancer) (loadBalancers : List LoadBalancer)
    (hentry : cache.loadBalancersListAll location = some entry)
    (herr : truthyStr entry.err = false) (hdata : entry.data = some loadBalancers)
    (hne : loadBalancers ≠ []) :
    (lbHasTagsLocation h cache acc location).acc.results =
        acc.results ++
          (loadBalancers.filter (fun lb => truthyStr lb.id)).map (fun lb =>
            if lb.tags ≠ none ∧ lb.tags ≠ some [] then
              { status := 0
                message := "Load Balancer has tags associated"
                region := some location
                resource := lb.id }
            else
              { status := 2
                message := "Load Balancer does not have tags associated"
                region := some location
                resource := lb.id }) ∧
      ((lbHasTagsLocation h cache acc location).acc.results.length =
        acc.results.length + (loadBalancers.filter (fun lb => truthyStr lb.id)).length) := by
  have hok : entryFailed entry = false := by simp [entryFailed, herr, hdata]
  have hlen : ¬ loadBalancers.length = 0 := by
    intro h0; exact hne (List.length_eq_zero.mp h0)
  have hstep : ∀ (results : List Finding) (lb : LoadBalancer),
      checkLoadBalancer location results lb =
        results ++ (if truthyStr lb.id then
          [if lb.tags ≠ none ∧ lb.tags ≠ some [] then
              { status := 0
                message := "Load Balancer has tags associated"
                region := some location
                resource := lb.id }
            else
              { status := 2
                message := "Load Balancer does not have tags associated"
                region := some location
                resource := lb.id }] else []) := by
    intro results lb
    unfold checkLoadBalancer addResult
    cases hid : truthyStr lb.id
    · simp
    · cases ht : lb.tags with
      | none => simp
      | some tags =>
        cases tags with
        | nil => simp
        | cons t rest => simp
  have hres : (lbHasTagsLocation h cache acc location).acc.results =
      loadBalancers.foldl (checkLoadBalancer location) acc.results := by
    simp [lbHasTagsLocation, addSource, hentry, hok, hdata, hlen]
  have hall : (lbHasTagsLocation h cache acc location).acc.results =
        acc.results ++
          (loadBalancers.filter (fun lb => truthyStr lb.id)).map (fun lb =>
            if lb.tags ≠ none ∧ lb.tags ≠ some [] then
              { status := 0
                message := "Load Balancer has tags associated"
                region := some location
                resource := lb.id }
            else
              { status := 2
                message := "Load Balancer does not have tags associated"
                region := some location
                resource := lb.id }) := by
    rw [hres, foldl_eq_append_flatMap (checkLoadBalancer location) _ hstep,
      flatMap_ite_eq_filter_map]
  refine ⟨hall, ?_⟩
  rw [hall, List.length_append, List.length_map]

/-- Witness of C16: a tagged load balancer, one without `id`, and one with an empty
`tags` object. -/
theorem lb_one_finding_per_identified_balancer_witness :
    (lbHasTagsLocation sampleAzureHelpers
        (cacheOfLoadBalancers
          [{ id := some "lb-1", tags := some [("env", "prod")] },
           { id := none, tags := some [("env", "prod")] },
           { id := some "lb-3", tags := some [] }])
        startAcc "eastus").acc.results =
      [{ status := 0, message := "Load Balancer has tags associated", region := some "eastus",
         resource := some "lb-1" },
       { status := 2, message := "Load Balancer does not have tags associated",
         region := some "eastus", resource := some "lb-3" }] :=
  (lb_one_finding_per_identified_balancer sampleAzureHelpers
    (cacheOfLoadBalancers
      [{ id := some "lb-1", tags := some [("env", "prod")] },
       { id := none, tags := some [("env", "prod")] },
       { id := some "lb-3", tags := some [] }])
    startAcc "eastus"
    { err := none
      data := some
        [{ id := some "lb-1", tags := some [("env", "prod")] },
         { id := none, tags := some [("env", "prod")] },
         { id := some "lb-3", tags := some [] }] }
    [{ id := some "lb-1", tags := some [("env", "prod")] },
     { id := none, tags := some [("env", "prod")] },
     { id := some "lb-3", tags := some [] }]
    rfl rfl rfl (by decide)).1

/-- C17: the descriptor list of a group has no duplicate, each of its elements is
one of the four descriptors, and so it has at most four elements, for every
list of permissions. -/
theorem descriptors_are_a_set_of_at_most_four (permissions : List IpPermission) :
    (groupStrings permissions).Nodup ∧
      (∀ d ∈ groupStrings permissions,
        d = "all ports open to 0.0.0.0/0" ∨ d = "all protocols open to 0.0.0.0/0" ∨
          d = "all ports open to ::/0" ∨ d = "all protocols open to ::/0") ∧
      (groupStrings permissions).length ≤ 4 := by
  have hmem : ∀ d ∈ groupStrings permissions,
      d = "all ports open to 0.0.0.0/0" ∨ d = "all protocols open to 0.0.0.0/0" ∨
        d = "all ports open to ::/0" ∨ d = "all protocols open to ::/0" := by
    intro d hd
    obtain ⟨p, _, hhit⟩ := (mem_groupStrings d permissions).mp hd
    rcases hhit with ⟨_, ⟨_, h1⟩ | ⟨_, h1⟩⟩ | ⟨_, ⟨_, h1⟩ | ⟨_, h1⟩⟩
    · exact Or.inl h1
    · exact Or.inr (Or.inl h1)
    · exact Or.inr (Or.inr (Or.inl h1))
    · exact Or.inr (Or.inr (Or.inr h1))
  refine ⟨nodup_groupStrings permissions, hmem, ?_⟩
  have hsub : groupStrings permissions ⊆
      ["all ports open to 0.0.0.0/0", "all protocols open to 0.0.0.0/0",
       "all ports open to ::/0", "all protocols open to ::/0"] := by
    intro d hd
    rcases hmem d hd with h1 | h1 | h1 | h1 <;> subst h1 <;> simp
  exact (List.subperm_of_subset (nodup_groupStrings permissions) hsub).length_le

/-- Witness of C17: the same open permission listed three times, followed by its
IPv6 counterpart, gives each descriptor once. -/
theorem descriptors_are_a_set_of_at_most_four_witness :
    groupStrings [openToWorld, openToWorld, openToWorld,
        { IpProtocol := "-1", FromPort := none, ToPort := none, IpRanges := [],
          Ipv6Ranges := [{ CidrIpv6 := "::/0" }, { CidrIpv6 := "::/0" }] }] =
        ["all ports open to 0.0.0.0/0", "all protocols open to 0.0.0.0/0",
         "all ports open to ::/0", "all protocols open to ::/0"] ∧
      (groupStrings [openToWorld, openToWorld, openToWorld,
        { IpProtocol := "-1", FromPort := none, ToPort := none, IpRanges := [],
          Ipv6Ranges := [{ CidrIpv6 := "::/0" }, { CidrIpv6 := "::/0" }] }]).length ≤ 4 :=
  ⟨by decide,
    (descriptors_are_a_set_of_at_most_four [openToWorld, openToWorld, openToWorld,
        { IpProtocol := "-1", FromPort := none, ToPort := none, IpRanges := [],
          Ipv6Ranges := [{ CidrIpv6 := "::/0" }, { CidrIpv6 := "::/0" }] }]).2.2⟩

/-- C18: with both modes disabled, for a region with a non-empty list of security
groups, the work function adds exactly one finding per group, in the order of
the list; each is scoped to the region and carries the ARN of its group, has
status 2 if and only if the descriptor list of the group is non-empty, and
status 0 otherwise. -/
theorem one_finding_per_group_in_order (h : AwsHelpers) (cache : Cache) (config : Config)
    (awsOrGov : String) (acc : Acc) (region : String) (entry : CacheEntry SecurityGroup)
    (groups : List SecurityGroup)
    (hskip : config.ec2_skip_unused_groups = false)
    (heni : config.check_network_interface = false)
    (hentry : cache.describeSecurityGroups region = some entry)
    (herr : truthyStr entry.err = false) (hdata : entry.data = some groups)
    (hne : groups ≠ []) :
    (openAllPortsRegion h cache config awsOrGov acc region).acc.results =
        acc.results ++ groups.map (modesOffFinding awsOrGov region) ∧
      (∀ group : SecurityGroup,
        ((modesOffFinding awsOrGov region group).status = 2 ↔
            groupStrings group.IpPermissions ≠ []) ∧
          ((modesOffFinding awsOrGov region group).status = 0 ↔
            groupStrings group.IpPermissions = []) ∧
          (modesOffFinding awsOrGov region group).region = some region ∧
          (modesOffFinding awsOrGov region group).resource =
            some (groupArn awsOrGov region group)) := by
  have hok : entryFailed entry = false := by simp [entryFailed, herr, hdata]
  have hlen : ¬ groups.length = 0 := by
    intro h0; exact hne (List.length_eq_zero.mp h0)
  have hstep : ∀ (results : List Finding) (group : SecurityGroup),
      checkGroup h cache config awsOrGov region none results group =
        results ++ [modesOffFinding awsOrGov region group] := by
    intro results group
    exact checkGroup_modes_off h cache config awsOrGov region none results group
      (unusedGroup_of_skip_off config none group hskip) heni
  have hres : (openAllPortsRegion h cache config awsOrGov acc region).acc.results =
      groups.foldl (checkGroup h cache config awsOrGov region none) acc.results := by
    simp [openAllPortsRegion, addSource, loadUsedGroups, hentry, hok, hdata, hlen, hskip]
  refine ⟨?_, fun group => modesOffFinding_status awsOrGov region group⟩
  rw [hres, foldl_eq_append_map _ _ hstep]

/-- Witness of C18: an open group followed by an HTTPS-only group. -/
theorem one_finding_per_group_in_order_witness :
    (openAllPortsRegion sampleAwsHelpers
        (cacheOfGroups [sampleGroup "sg-1" [openToWorld], sampleGroup "sg-2" [httpsOnly]])
        modesOff "aws" startAcc "us-east-1").acc.results =
      [{ status := 2
         message := "Security group: sg-1 (web) has all ports open to 0.0.0.0/0 and " ++
           "all protocols open to 0.0.0.0/0"
         region := some "us-east-1"
         resource := some "arn:aws:ec2:us-east-1:111122223333:security-group/sg-1" },
       { status := 0
         message :=
           "Security group: sg-2 (web) does not have all ports or protocols open to the public"
         region := some "us-east-1"
         resource := some "arn:aws:ec2:us-east-1:111122223333:security-group/sg-2" }] :=
  ((one_finding_per_group_in_order sampleAwsHelpers
    (cacheOfGroups [sampleGroup "sg-1" [openToWorld], sampleGroup "sg-2" [httpsOnly]])
    modesOff "aws" startAcc "us-east-1"
    { err := none
      data := some [sampleGroup "sg-1" [openToWorld], sampleGroup "sg-2" [httpsOnly]] }
    [sampleGroup "sg-1" [openToWorld], sampleGroup "sg-2" [httpsOnly]]
    rfl rfl rfl rfl rfl (by decide)).1).trans (by decide)

/-- The all-protocols test on its own: `all protocols open to 0.0.0.0/0` is in the
descriptor list of a group if and only if some permission has protocol `-1` and
an IPv4 range exactly `0.0.0.0/0`, whatever its FromPort and ToPort are, and
likewise for `::/0` over the IPv6 ranges; a wildcard-protocol permission on one
specific non-zero port yields the all-protocols descriptor alone.  Port 0 is
not covered: see `wildcard_on_port_zero_gets_all_ports`. -/
theorem all_protocols_independent_of_ports (permissions : List IpPermission) :
    ("all protocols open to 0.0.0.0/0" ∈ groupStrings permissions ↔
        ∃ p ∈ permissions, p.IpProtocol = "-1" ∧ ∃ r ∈ p.IpRanges, r.CidrIp = "0.0.0.0/0") ∧
      ("all protocols open to ::/0" ∈ groupStrings permissions ↔
        ∃ p ∈ permissions, p.IpProtocol = "-1" ∧
          ∃ r ∈ p.Ipv6Ranges, r.CidrIpv6 = "::/0") ∧
      (∀ (port : Int) (toPort : Option Int), port ≠ 0 →
        groupStrings [{ IpProtocol := "-1", FromPort := some port, ToPort := toPort,
                        IpRanges := [{ CidrIp := "0.0.0.0/0" }], Ipv6Ranges := [] }] =
          ["all protocols open to 0.0.0.0/0"]) := by
  have d1 : ¬ ("all protocols open to 0.0.0.0/0" = "all ports open to 0.0.0.0/0") := by decide
  have d2 : ¬ ("all protocols open to 0.0.0.0/0" = "all ports open to ::/0") := by decide
  have d3 : ¬ ("all protocols open to 0.0.0.0/0" = "all protocols open to ::/0") := by decide
  have d4 : ¬ ("all protocols open to ::/0" = "all ports open to 0.0.0.0/0") := by decide
  have d5 : ¬ ("all protocols open to ::/0" = "all protocols open to 0.0.0.0/0") := by decide
  have d6 : ¬ ("all protocols open to ::/0" = "all ports open to ::/0") := by decide
  refine ⟨?_, ?_, ?_⟩
  · rw [mem_groupStrings]
    constructor
    · rintro ⟨p, hp, ⟨hex, ⟨_, h1⟩ | ⟨hpr, _⟩⟩ | ⟨_, ⟨_, h1⟩ | ⟨_, h1⟩⟩⟩
      · exact absurd h1 d1
      · exact ⟨p, hp, hpr, hex⟩
      · exact absurd h1 d2
      · exact absurd h1 d3
    · rintro ⟨p, hp, hpr, hex⟩
      exact ⟨p, hp, Or.inl ⟨hex, Or.inr ⟨hpr, rfl⟩⟩⟩
  · rw [mem_groupStrings]
    constructor
    · rintro ⟨p, hp, ⟨_, ⟨_, h1⟩ | ⟨_, h1⟩⟩ | ⟨hex, ⟨_, h1⟩ | ⟨hpr, _⟩⟩⟩
      · exact absurd h1 d4
      · exact absurd h1 d5
      · exact absurd h1 d6
      · exact ⟨p, hp, hpr, hex⟩
    · rintro ⟨p, hp, hpr, hex⟩
      exact ⟨p, hp, Or.inr ⟨hex, Or.inr ⟨hpr, rfl⟩⟩⟩
  · intro port toPort hport
    simp [groupStrings, scanPermission, scanIpRange, allPortsOpen, truthyNum, pushUnique,
      hport]

/-- The wildcard-protocol permission restricted to port 443 yields the
all-protocols descriptor alone. -/
theorem all_protocols_independent_of_ports_witness :
    groupStrings [anyProtocolOnePort] = ["all protocols open to 0.0.0.0/0"] ∧
      "all protocols open to 0.0.0.0/0" ∈ groupStrings [anyProtocolOnePort] :=
  ⟨(all_protocols_independent_of_ports []).2.2 443 (some 443) (by decide),
    (all_protocols_independent_of_ports [anyProtocolOnePort]).1.mpr
      ⟨anyProtocolOnePort, by simp, rfl, { CidrIp := "0.0.0.0/0" }, by decide, rfl⟩⟩

/-- C19, the code at the failing input: the wildcard-protocol permission restricted
to the single port 0 (FromPort 0, ToPort 0) on `0.0.0.0/0` has its protocol and
range in the form that yields `all protocols open to 0.0.0.0/0`, but since
`!permission.FromPort` and `!permission.ToPort` are both true of the number 0
the port test of line 87 holds too: the descriptor list also has `all ports
open to 0.0.0.0/0`, and with both modes disabled the finding of the group says
that all ports are open. -/
theorem wildcard_on_port_zero_gets_all_ports :
    anyProtocolPortZero.FromPort = some 0 ∧ anyProtocolPortZero.ToPort = some 0 ∧
      allPortsOpen anyProtocolPortZero = true ∧
      "all protocols open to 0.0.0.0/0" ∈ groupStrings [anyProtocolPortZero] ∧
      "all ports open to 0.0.0.0/0" ∈ groupStrings [anyProtocolPortZero] ∧
      groupStrings [anyProtocolPortZero] =
        ["all ports open to 0.0.0.0/0", "all protocols open to 0.0.0.0/0"] ∧
      checkGroup sampleAwsHelpers emptyCache modesOff "aws" "us-east-1" none []
          (sampleGroup "sg-1" [anyProtocolPortZero]) =
        [{ status := 2
           message := "Security group: sg-1 (web) has all ports open to 0.0.0.0/0 and " ++
             "all protocols open to 0.0.0.0/0"
           region := some "us-east-1"
           resource := some "arn:aws:ec2:us-east-1:111122223333:security-group/sg-1" }] := by
  decide

/-! ## Lemmas on the independence of scopes -/

theorem checkLoadBalancer_append (location : String) (results : List Finding)
    (lb : LoadBalancer) :
    checkLoadBalancer location results lb = results ++ checkLoadBalancer location [] lb := by
  unfold checkLoadBalancer addResult
  split
  · simp
  · split
    · split <;> simp
    · simp

theorem checkLoadBalancer_status (location : String) (lb : LoadBalancer) :
    ∀ f ∈ checkLoadBalancer location [] lb, f.status = 0 ∨ f.status = 2 := by
  intro f hf
  unfold checkLoadBalancer addResult at hf
  split at hf
  · simp at hf
  · split at hf
    · split at hf <;> simp only [List.nil_append, List.mem_singleton] at hf <;> subst hf <;>
        simp
    · simp only [List.nil_append, List.mem_singleton] at hf
      subst hf
      simp

theorem checkPostgresServer_append (location : String) (results : List Finding)
    (server : PostgresServer) :
    checkPostgresServer location results server =
      results ++ checkPostgresServer location [] server := by
  unfold checkPostgresServer addResult
  split
  · split <;> simp
  · simp

theorem checkPostgresServer_status (location : String) (server : PostgresServer) :
    ∀ f ∈ checkPostgresServer location [] server, f.status = 0 ∨ f.status = 2 := by
  intro f hf
  unfold checkPostgresServer addResult at hf
  split at hf
  · split at hf <;> simp only [List.nil_append, List.mem_singleton] at hf <;> subst hf <;>
      simp
  · simp only [List.nil_append, List.mem_singleton] at hf
    subst hf
    simp

theorem checkScaleSet_append (location : String) (results : List Finding)
    (scaleSet : VirtualMachineScaleSet) :
    checkScaleSet location results scaleSet = results ++ checkScaleSet location [] scaleSet := by
  unfold checkScaleSet addResult
  split <;> simp

theorem checkScaleSet_status (location : String) (scaleSet : VirtualMachineScaleSet) :
    ∀ f ∈ checkScaleSet location [] scaleSet, f.status = 0 ∨ f.status = 2 := by
  intro f hf
  unfold checkScaleSet addResult at hf
  split at hf <;> simp only [List.nil_append, List.mem_singleton] at hf <;> subst hf <;> simp

theorem checkGroup_modesOff_append (h : AwsHelpers) (cache : Cache) (awsOrGov region : String)
    (results : List Finding) (group : SecurityGroup) :
    checkGroup h cache modesOff awsOrGov region none results group =
      results ++ checkGroup h cache modesOff awsOrGov region none [] group := by
  rw [checkGroup_modes_off h cache modesOff awsOrGov region none results group
      (unusedGroup_of_skip_off modesOff none group rfl) rfl,
    checkGroup_modes_off h cache modesOff awsOrGov region none [] group
      (unusedGroup_of_skip_off modesOff none group rfl) rfl, List.nil_append]

theorem checkGroup_modesOff_status (h : AwsHelpers) (cache : Cache) (awsOrGov region : String)
    (group : SecurityGroup) :
    ∀ f ∈ checkGroup h cache modesOff awsOrGov region none [] group,
      f.status = 0 ∨ f.status = 2 := by
  intro f hf
  rw [checkGroup_modes_off h cache modesOff awsOrGov region none [] group
      (unusedGroup_of_skip_off modesOff none group rfl) rfl] at hf
  simp only [List.nil_append, List.mem_singleton] at hf
  subst hf
  by_cases hflag : groupStrings group.IpPermissions = [] <;> simp [modesOffFinding, hflag]

theorem foldl_split_of_append {α : Type} (step : List Finding → α → List Finding)
    (hstep : ∀ results x, step results x = results ++ step [] x) (items : List α)
    (results : List Finding) :
    items.foldl step results = results ++ items.foldl step [] := by
  rw [foldl_eq_append_flatMap step (fun x => step [] x) hstep items results,
    foldl_eq_append_flatMap step (fun x => step [] x) hstep items [], List.nil_append]

theorem foldl_status_of_append {α : Type} (step : List Finding → α → List Finding)
    (hstep : ∀ results x, step results x = results ++ step [] x)
    (hstatus : ∀ x, ∀ f ∈ step [] x, f.status = 0 ∨ f.status = 2) (items : List α) :
    ∀ f ∈ items.foldl step [], f.status = 0 ∨ f.status = 2 := by
  intro f hf
  rw [foldl_eq_append_flatMap step (fun x => step [] x) hstep items [], List.nil_append,
    List.mem_flatMap] at hf
  obtain ⟨x, _, hx⟩ := hf
  exact hstatus x f hx

theorem lbHasTagsLocation_appends (h : AzureHelpers) (cache : Cache) (acc : Acc)
    (scope : String) :
    lbHasTagsLocation h cache acc scope =
      { acc := { results := acc.results ++
                   (lbHasTagsLocation h cache startAcc scope).acc.results
                 source := acc.source ++ [{ service := "loadBalancers", operation := "listAll",
                                            scope := scope }] }
        rcb := 1 } := by
  cases hl : cache.loadBalancersListAll scope with
  | none => simp [lbHasTagsLocation, addSource, startAcc, hl]
  | some entry =>
    cases hf : entryFailed entry
    · by_cases hlen : (entry.data.getD []).length = 0
      · simp [lbHasTagsLocation, addSource, startAcc, hl, hf, hlen, addResult]
      · have hfold2 := foldl_split_of_append _ (checkLoadBalancer_append scope) (entry.data.getD []) acc.results
        simp only [modesOff] at hfold2
        simp [lbHasTagsLocation, addSource, startAcc, hl, hf, hlen, hfold2]
    · simp [lbHasTagsLocation, addSource, startAcc, hl, hf, addResult]

theorem lbHasTagsLocation_ok_status (h : AzureHelpers) (cache : Cache) (scope : String)
    (entry : _) (hl : cache.loadBalancersListAll scope = some entry) (hf : entryFailed entry = false) :
    ∀ f ∈ (lbHasTagsLocation h cache startAcc scope).acc.results,
      f.status = 0 ∨ f.status = 2 := by
  have hstatus := foldl_status_of_append (checkLoadBalancer scope) (checkLoadBalancer_append scope) (checkLoadBalancer_status scope)
    (entry.data.getD [])
  simp only [modesOff] at hstatus
  intro f hmem
  by_cases hlen : (entry.data.getD []).length = 0
  · simp [lbHasTagsLocation, addSource, startAcc, hl, hf, hlen, addResult] at hmem
    subst hmem
    simp
  · simp only [lbHasTagsLocation, addSource, startAcc, hl, hf, hlen] at hmem
    exact hstatus f (by simpa using hmem)

theorem lbHasTagsLocation_failed (h : AzureHelpers) (cache : Cache) (scope : String)
    (entry : _) (hl : cache.loadBalancersListAll scope = some entry) (hf : entryFailed entry = true) :
    (lbHasTagsLocation h cache startAcc scope).acc.results =
      [{ status := 3
         message := "Unable to query Load Balancers: " ++ h.addError entry
         region := some scope
         resource := none }] := by
  simp [lbHasTagsLocation, addSource, startAcc, hl, hf, addResult]

theorem postgresLocation_appends (h : AzureHelpers) (cache : Cache) (acc : Acc)
    (scope : String) :
    postgresLocation h cache acc scope =
      { acc := { results := acc.results ++
                   (postgresLocation h cache startAcc scope).acc.results
                 source := acc.source ++ [{ service := "servers", operation := "listPostgres",
                                            scope := scope }] }
        rcb := 1 } := by
  cases hl : cache.serversListPostgres scope with
  | none => simp [postgresLocation, addSource, startAcc, hl]
  | some entry =>
    cases hf : entryFailed entry
    · by_cases hlen : (entry.data.getD []).length = 0
      · simp [postgresLocation, addSource, startAcc, hl, hf, hlen, addResult]
      · have hfold2 := foldl_split_of_append _ (checkPostgresServer_append scope) (entry.data.getD []) acc.results
        simp only [modesOff] at hfold2
        simp [postgresLocation, addSource, startAcc, hl, hf, hlen, hfold2]
    · simp [postgresLocation, addSource, startAcc, hl, hf, addResult]

theorem postgresLocation_ok_status (h : AzureHelpers) (cache : Cache) (scope : String)
    (entry : _) (hl : cache.serversListPostgres scope = some entry) (hf : entryFailed entry = false) :
    ∀ f ∈ (postgresLocation h cache startAcc scope).acc.results,
      f.status = 0 ∨ f.status = 2 := by
  have hstatus := foldl_status_of_append (checkPostgresServer scope) (checkPostgresServer_append scope) (checkPostgresServer_status scope)
    (entry.data.getD [])
  simp only [modesOff] at hstatus
  intro f hmem
  by_cases hlen : (entry.data.getD []).length = 0
  · simp [postgresLocation, addSource, startAcc, hl, hf, hlen, addResult] at hmem
    subst hmem
    simp
  · simp only [postgresLocation, addSource, startAcc, hl, hf, hlen] at hmem
    exact hstatus f (by simpa using hmem)

theorem postgresLocation_failed (h : AzureHelpers) (cache : Cache) (scope : String)
    (entry : _) (hl : cache.serversListPostgres scope = some entry) (hf : entryFailed entry = true) :
    (postgresLocation h cache startAcc scope).acc.results =
      [{ status := 3
         message := "Unable to query for PostgreSQL servers: " ++ h.addError entry
         region := some scope
         resource := none }] := by
  simp [postgresLocation, addSource, startAcc, hl, hf, addResult]

theorem autoOsUpgradesLocation_appends (h : AzureHelpers) (cache : Cache) (acc : Acc)
    (scope : String) :
    autoOsUpgradesLocation h cache acc scope =
      { acc := { results := acc.results ++
                   (autoOsUpgradesLocation h cache startAcc scope).acc.results
                 source := acc.source ++ [{ service := "virtualMachineScaleSets", operation := "listAll",
                                            scope := scope }] }
        rcb := 1 } := by
  cases hl : cache.virtualMachineScaleSetsListAll scope with
  | none => simp [autoOsUpgradesLocation, addSource, startAcc, hl]
  | some entry =>
    cases hf : entryFailed entry
    · by_cases hlen : (entry.data.getD []).length = 0
      · simp [autoOsUpgradesLocation, addSource, startAcc, hl, hf, hlen, addResult]
      · have hfold2 := foldl_split_of_append _ (checkScaleSet_append scope) (entry.data.getD []) acc.results
        simp only [modesOff] at hfold2
        simp [autoOsUpgradesLocation, addSource, startAcc, hl, hf, hlen, hfold2]
    · simp [autoOsUpgradesLocation, addSource, startAcc, hl, hf, addResult]

theorem autoOsUpgradesLocation_ok_status (h : AzureHelpers) (cache : Cache) (scope : String)
    (entry : _) (hl : cache.virtualMachineScaleSetsListAll scope = some entry) (hf : entryFailed entry = false) :
    ∀ f ∈ (autoOsUpgradesLocation h cache startAcc scope).acc.results,
      f.status = 0 ∨ f.status = 2 := by
  have hstatus := foldl_status_of_append (checkScaleSet scope) (checkScaleSet_append scope) (checkScaleSet_status scope)
    (entry.data.getD [])
  simp only [modesOff] at hstatus
  intro f hmem
  by_cases hlen : (entry.data.getD []).length = 0
  · simp [autoOsUpgradesLocation, addSource, startAcc, hl, hf, hlen, addResult] at hmem
    subst hmem
    simp
  · simp only [autoOsUpgradesLocation, addSource, startAcc, hl, hf, hlen] at hmem
    exact hstatus f (by simpa using hmem)

theorem autoOsUpgradesLocation_failed (h : AzureHelpers) (cache : Cache) (scope : String)
    (entry : _) (hl : cache.virtualMachineScaleSetsListAll scope = some entry) (hf : entryFailed entry = true) :
    (autoOsUpgradesLocation h cache startAcc scope).acc.results =
      [{ status := 3
         message := "Unable to query for Virtual Machine Scale Sets: " ++ h.addError entry
         region := some scope
         resource := none }] := by
  simp [autoOsUpgradesLocation, addSource, startAcc, hl, hf, addResult]

theorem openAllPortsRegion_modesOff_appends (h : AwsHelpers) (cache : Cache) (awsOrGov : String) (acc : Acc)
    (scope : String) :
    openAllPortsRegion h cache modesOff awsOrGov acc scope =
      { acc := { results := acc.results ++
                   (openAllPortsRegion h cache modesOff awsOrGov startAcc scope).acc.results
                 source := acc.source ++ [{ service := "ec2", operation := "describeSecurityGroups",
                                            scope := scope }] }
        rcb := 1 } := by
  cases hl : cache.describeSecurityGroups scope with
  | none => simp [openAllPortsRegion, loadUsedGroups, modesOff, addSource, startAcc, hl]
  | some entry =>
    cases hf : entryFailed entry
    · by_cases hlen : (entry.data.getD []).length = 0
      · simp [openAllPortsRegion, loadUsedGroups, modesOff, addSource, startAcc, hl, hf, hlen, addResult]
      · have hfold2 := foldl_split_of_append _ (checkGroup_modesOff_append h cache awsOrGov scope) (entry.data.getD []) acc.results
        simp only [modesOff] at hfold2
        simp [openAllPortsRegion, loadUsedGroups, modesOff, addSource, startAcc, hl, hf, hlen, hfold2]
    · simp [openAllPortsRegion, loadUsedGroups, modesOff, addSource, startAcc, hl, hf, addResult]

theorem openAllPortsRegion_modesOff_ok_status (h : AwsHelpers) (cache : Cache) (awsOrGov : String) (scope : String)
    (entry : _) (hl : cache.describeSecurityGroups scope = some entry) (hf : entryFailed entry = false) :
    ∀ f ∈ (openAllPortsRegion h cache modesOff awsOrGov startAcc scope).acc.results,
      f.status = 0 ∨ f.status = 2 := by
  have hstatus := foldl_status_of_append (checkGroup h cache modesOff awsOrGov scope none) (checkGroup_modesOff_append h cache awsOrGov scope) (checkGroup_modesOff_status h cache awsOrGov scope)
    (entry.data.getD [])
  simp only [modesOff] at hstatus
  intro f hmem
  by_cases hlen : (entry.data.getD []).length = 0
  · simp [openAllPortsRegion, loadUsedGroups, modesOff, addSource, startAcc, hl, hf, hlen, addResult] at hmem
    subst hmem
    simp
  · simp only [openAllPortsRegion, loadUsedGroups, modesOff, addSource, startAcc, hl, hf, hlen] at hmem
    exact hstatus f (by simpa using hmem)

theorem openAllPortsRegion_modesOff_failed (h : AwsHelpers) (cache : Cache) (awsOrGov : String) (scope : String)
    (entry : _) (hl : cache.describeSecurityGroups scope = some entry) (hf : entryFailed entry = true) :
    (openAllPortsRegion h cache modesOff awsOrGov startAcc scope).acc.results =
      [{ status := 3
         message := "Unable to query for security groups: " ++ h.addError entry
         region := some scope
         resource := none }] := by
  simp [openAllPortsRegion, loadUsedGroups, modesOff, addSource, startAcc, hl, hf, addResult]

theorem eachScope_of_appends (worker : Acc → String → Step) (key : String → CacheKey)
    (hw : ∀ acc scope, worker acc scope =
      { acc := { results := acc.results ++ (worker startAcc scope).acc.results
                 source := acc.source ++ [key scope] }
        rcb := 1 }) :
    ∀ (scopes : List String) (acc : Acc),
      (eachScope worker scopes acc).1 =
        { results := acc.results ++ scopes.flatMap (fun s => (worker startAcc s).acc.results)
          source := acc.source ++ scopes.map key } := by
  intro scopes
  induction scopes with
  | nil => intro acc; simp [eachScope]
  | cons scope rest ih =>
    intro acc
    simp only [eachScope, ih, List.flatMap_cons, List.map_cons]
    rw [hw acc scope]
    simp [List.append_assoc]

theorem filter_status3_of_ok (findings : List Finding)
    (hok : ∀ f ∈ findings, f.status = 0 ∨ f.status = 2) :
    findings.filter (fun f => f.status == 3) = [] := by
  rw [List.filter_eq_nil_iff]
  intro f hf
  rcases hok f hf with h0 | h2
  · simp [h0]
  · simp [h2]

theorem siblingsUnaffected_of_appends (worker : Acc → String → Step) (key : String → CacheKey)
    (hw : ∀ acc scope, worker acc scope =
      { acc := { results := acc.results ++ (worker startAcc scope).acc.results
                 source := acc.source ++ [key scope] }
        rcb := 1 })
    (before : List String) (failed : String) (after : List String) (failure : Finding)
    (hfail : (worker startAcc failed).acc.results = [failure])
    (hstatus : failure.status = 3) (hregion : failure.region = some failed)
    (hothers : ∀ s ∈ before ++ after, ∀ f ∈ (worker startAcc s).acc.results,
      f.status = 0 ∨ f.status = 2) :
    SiblingsUnaffected
      (asyncEach (before ++ failed :: after) worker
        (fun acc => { error := none, results := acc.results, source := acc.source })
        { results := [], source := [] })
      (fun s => (worker startAcc s).acc.results) before failed after := by
  have hrcb : ∀ acc scope, (worker acc scope).rcb = 1 := by
    intro acc scope; rw [hw acc scope]
  refine ⟨failure, (before ++ failed :: after).map key, ?_, hstatus, hregion, hothers, ?_⟩
  · rw [asyncEach_once worker _ hrcb, eachScope_of_appends worker key hw]
    simp [List.flatMap_append, hfail]
  · have hb : ∀ f ∈ before.flatMap (fun s => (worker startAcc s).acc.results),
        f.status = 0 ∨ f.status = 2 := by
      intro f hf
      obtain ⟨s, hs, hfs⟩ := List.mem_flatMap.mp hf
      exact hothers s (List.mem_append_left _ hs) f hfs
    have ha : ∀ f ∈ after.flatMap (fun s => (worker startAcc s).acc.results),
        f.status = 0 ∨ f.status = 2 := by
      intro f hf
      obtain ⟨s, hs, hfs⟩ := List.mem_flatMap.mp hf
      exact hothers s (List.mem_append_right _ hs) f hfs
    rw [List.filter_append, List.filter_cons, filter_status3_of_ok _ hb,
      filter_status3_of_ok _ ha]
    simp [hstatus]

/-! ## Claims on the independence of scopes -/

/-- C13: in `lbHasTags`, `postgresqlPrivateEndpoints`, `autoOsUpgradesEnabled`, and in
`openAllPortsProtocols` when neither mode is in effect, if exactly one scope of
the list holds a failed entry and every other scope holds a successful entry,
then `callback` is invoked once, without error, and its findings are: those
that each earlier scope produces when run alone, one finding of status 3 scoped
to the failing scope, and those that each later scope produces when run alone;
all findings of the other scopes have status 0 or 2, so the finding of status 3
is the only one. -/
theorem failing_scope_leaves_siblings_alone (ha : AwsHelpers) (hz : AzureHelpers)
    (cache : Cache) (settings : Settings) (before : List String) (failed : String)
    (after : List String) :
    (hz.locationsLoadBalancers settings.govcloud = before ++ failed :: after →
        (∃ entry, cache.loadBalancersListAll failed = some entry ∧ entryFailed entry = true) →
        (∀ s ∈ before ++ after,
          ∃ entry, cache.loadBalancersListAll s = some entry ∧ entryFailed entry = false) →
        SiblingsUnaffected (lbHasTagsRun hz cache settings)
          (fun s => (lbHasTagsLocation hz cache startAcc s).acc.results) before failed after) ∧
      (hz.locationsServers settings.govcloud = before ++ failed :: after →
        (∃ entry, cache.serversListPostgres failed = some entry ∧ entryFailed entry = true) →
        (∀ s ∈ before ++ after,
          ∃ entry, cache.serversListPostgres s = some entry ∧ entryFailed entry = false) →
        SiblingsUnaffected (postgresRun hz cache settings)
          (fun s => (postgresLocation hz cache startAcc s).acc.results) before failed after) ∧
      (hz.locationsVirtualMachineScaleSets settings.govcloud = before ++ failed :: after →
        (∃ entry, cache.virtualMachineScaleSetsListAll failed = some entry ∧ entryFailed entry = true) →
        (∀ s ∈ before ++ after,
          ∃ entry, cache.virtualMachineScaleSetsListAll s = some entry ∧ entryFailed entry = false) →
        SiblingsUnaffected (autoOsUpgradesRun hz cache settings)
          (fun s => (autoOsUpgradesLocation hz cache startAcc s).acc.results) before failed after) ∧
      (mkConfig settings = modesOff →
        ha.regions settings = before ++ failed :: after →
        (∃ entry, cache.describeSecurityGroups failed = some entry ∧ entryFailed entry = true) →
        (∀ s ∈ before ++ after,
          ∃ entry, cache.describeSecurityGroups s = some entry ∧ entryFailed entry = false) →
        SiblingsUnaffected (openAllPortsRun ha cache settings)
          (fun s => (openAllPortsRegion ha cache modesOff (ha.defaultPartition settings)
            startAcc s).acc.results) before failed after) := by
  refine ⟨?_, ?_, ?_, ?_⟩
  · rintro hscopes ⟨entry, hentry, hfailed⟩ hothers
    unfold lbHasTagsRun
    rw [hscopes]
    exact siblingsUnaffected_of_appends (lbHasTagsLocation hz cache) _
      (fun acc scope => lbHasTagsLocation_appends hz cache acc scope) before failed after _
      (lbHasTagsLocation_failed hz cache failed entry hentry hfailed) rfl rfl
      (fun s hs => by
        obtain ⟨e, he, hok⟩ := hothers s hs
        exact lbHasTagsLocation_ok_status hz cache s e he hok)
  · rintro hscopes ⟨entry, hentry, hfailed⟩ hothers
    unfold postgresRun
    rw [hscopes]
    exact siblingsUnaffected_of_appends (postgresLocation hz cache) _
      (fun acc scope => postgresLocation_appends hz cache acc scope) before failed after _
      (postgresLocation_failed hz cache failed entry hentry hfailed) rfl rfl
      (fun s hs => by
        obtain ⟨e, he, hok⟩ := hothers s hs
        exact postgresLocation_ok_status hz cache s e he hok)
  · rintro hscopes ⟨entry, hentry, hfailed⟩ hothers
    unfold autoOsUpgradesRun
    rw [hscopes]
    exact siblingsUnaffected_of_appends (autoOsUpgradesLocation hz cache) _
      (fun acc scope => autoOsUpgradesLocation_appends hz cache acc scope) before failed after _
      (autoOsUpgradesLocation_failed hz cache failed entry hentry hfailed) rfl rfl
      (fun s hs => by
        obtain ⟨e, he, hok⟩ := hothers s hs
        exact autoOsUpgradesLocation_ok_status hz cache s e he hok)
  · rintro hconfig hscopes ⟨entry, hentry, hfailed⟩ hothers
    unfold openAllPortsRun
    simp only [hconfig]
    rw [hscopes]
    exact siblingsUnaffected_of_appends
      (openAllPortsRegion ha cache modesOff (ha.defaultPartition settings)) _
      (fun acc scope => openAllPortsRegion_modesOff_appends ha cache _ acc scope) before failed
      after _
      (openAllPortsRegion_modesOff_failed ha cache _ failed entry hentry hfailed) rfl rfl
      (fun s hs => by
        obtain ⟨e, he, hok⟩ := hothers s hs
        exact openAllPortsRegion_modesOff_ok_status ha cache _ s e he hok)

/-- Witness of C13: `lbHasTags` over `eastus`, `westus`, `northeurope`, where only
`westus` failed. -/
theorem failing_scope_leaves_siblings_alone_witness :
    lbHasTagsRun threeLocationHelpers oneFailureCache noSettings =
        [{ error := none
           results :=
             [{ status := 0, message := "Load Balancer has tags associated",
                region := some "eastus", resource := some "lb-1" },
              { status := 3, message := "Unable to query Load Balancers: Throttled",
                region := some "westus", resource := none },
              { status := 0, message := "No existing Load Balancers found",
                region := some "northeurope", resource := none }]
           source :=
             [{ service := "loadBalancers", operation := "listAll", scope := "eastus" },
              { service := "loadBalancers", operation := "listAll", scope := "westus" },
              { service := "loadBalancers", operation := "listAll", scope := "northeurope" }] }] ∧
      SiblingsUnaffected (lbHasTagsRun threeLocationHelpers oneFailureCache noSettings)
        (fun s => (lbHasTagsLocation threeLocationHelpers oneFailureCache startAcc s).acc.results)
        ["eastus"] "westus" ["northeurope"] :=
  ⟨by decide,
    (failing_scope_leaves_siblings_alone sampleAwsHelpers threeLocationHelpers oneFailureCache
      noSettings ["eastus"] "westus" ["northeurope"]).1 rfl
      ⟨{ err := some "Throttled", data := none }, rfl, rfl⟩
      (by
        intro s hs
        simp only [List.cons_append, List.nil_append, List.mem_cons, List.mem_singleton,
          List.not_mem_nil, or_false] at hs
        rcases hs with hs | hs
        · subst hs
          exact ⟨{ err := none
                   data := some [{ id := some "lb-1", tags := some [("env", "prod")] }] },
            rfl, rfl⟩
        · subst hs
          exact ⟨{ err := none, data := some [] }, rfl, rfl⟩)⟩

/-! ## Claims on the empty used-groups index -/

theorem unusedGroup_of_empty_index (config : Config) (used : Option (List String))
    (group : SecurityGroup) (hused : used = some [] ∨ used = none) :
    unusedGroup config used group = false := by
  rcases hused with hu | hu <;> subst hu <;> simp [unusedGroup]

/-- C20: in usage-check mode, when the index returned for the region is empty (or is
no list at all), every group is treated exactly as with the mode off: the rule
pushes no finding of status 1; with the network-interface check disabled each
group gets the finding of the plain case, of status 2 when it has descriptors;
with it enabled a group with descriptors is handed to the network-interface
check and any other group gets status 0. -/
theorem empty_index_behaves_as_mode_off (h : AwsHelpers) (cache : Cache) (eni : Bool)
    (awsOrGov region : String) (used : Option (List String))
    (hused : used = some [] ∨ used = none) :
    (∀ (results : List Finding) (group : SecurityGroup),
        checkGroup h cache (Config.mk true eni) awsOrGov region used results group =
          checkGroup h cache (Config.mk false eni) awsOrGov region none results group) ∧
      (∀ (results : List Finding) (group : SecurityGroup),
        checkGroup h cache (Config.mk true false) awsOrGov region used results group =
            results ++ [modesOffFinding awsOrGov region group] ∧
          (modesOffFinding awsOrGov region group).status ≠ 1 ∧
          (groupStrings group.IpPermissions ≠ [] →
            (modesOffFinding awsOrGov region group).status = 2)) ∧
      (∀ (results : List Finding) (group : SecurityGroup),
        (groupStrings group.IpPermissions ≠ [] ∧ eni = true ∧
            checkGroup h cache (Config.mk true eni) awsOrGov region used results group =
              h.checkNetworkInterface group.GroupId group.GroupName
                (flaggedMessage "Security group:" group (groupStrings group.IpPermissions))
                region results (groupArn awsOrGov region group) cache) ∨
          (∃ f : Finding,
            checkGroup h cache (Config.mk true eni) awsOrGov region used results group =
              results ++ [f] ∧ (f.status = 0 ∨ f.status = 2))) ∧
      (∀ (acc : Acc) (entry : CacheEntry SecurityGroup) (groups : List SecurityGroup)
          (afterHelper : List Finding),
        cache.describeSecurityGroups region = some entry → truthyStr entry.err = false →
        entry.data = some groups → groups ≠ [] →
        h.getUsedSecurityGroups cache acc.results region = (afterHelper, used) →
        (openAllPortsRegion h cache (Config.mk true false) awsOrGov acc region).acc.results =
          afterHelper ++ groups.map (modesOffFinding awsOrGov region)) := by
  have hun : ∀ (config : Config) (group : SecurityGroup),
      unusedGroup config used group = false :=
    fun config group => unusedGroup_of_empty_index config used group hused
  have hplain : ∀ (results : List Finding) (group : SecurityGroup),
      checkGroup h cache (Config.mk true false) awsOrGov region used results group =
        results ++ [modesOffFinding awsOrGov region group] :=
    fun results group =>
      checkGroup_modes_off h cache (Config.mk true false) awsOrGov region used results group
        (hun _ group) rfl
  refine ⟨?_, ?_, ?_, ?_⟩
  · intro results group
    by_cases hflag : groupStrings group.IpPermissions = []
    · rw [checkGroup_of_nil h cache _ awsOrGov region used results group hflag,
        checkGroup_of_nil h cache _ awsOrGov region none results group hflag]
    · rw [checkGroup_of_flagged h cache _ awsOrGov region used results group hflag,
        checkGroup_of_flagged h cache _ awsOrGov region none results group hflag,
        hun _ group, unusedGroup_of_skip_off (Config.mk false eni) none group rfl]
  · intro results group
    refine ⟨hplain results group, ?_, ?_⟩
    · by_cases hflag : groupStrings group.IpPermissions = [] <;> simp [modesOffFinding, hflag]
    · intro hflag
      exact (modesOffFinding_status awsOrGov region group).1.mpr hflag
  · intro results group
    by_cases hflag : groupStrings group.IpPermissions = []
    · right
      exact ⟨_, checkGroup_of_nil h cache _ awsOrGov region used results group hflag,
        Or.inl rfl⟩
    · cases eni with
      | false =>
        right
        refine ⟨_, hplain results group, ?_⟩
        exact Or.inr ((modesOffFinding_status awsOrGov region group).1.mpr hflag)
      | true =>
        left
        refine ⟨hflag, rfl, ?_⟩
        rw [checkGroup_of_flagged h cache _ awsOrGov region used results group hflag,
          hun _ group]
        simp
  · intro acc entry groups afterHelper hentry herr hdata hne hhelper
    have hok : entryFailed entry = false := by simp [entryFailed, herr, hdata]
    have hlen : ¬ groups.length = 0 := by
      intro h0; exact hne (List.length_eq_zero.mp h0)
    have hres : (openAllPortsRegion h cache (Config.mk true false) awsOrGov acc
        region).acc.results =
        groups.foldl (checkGroup h cache (Config.mk true false) awsOrGov region used)
          afterHelper := by
      simp [openAllPortsRegion, addSource, loadUsedGroups, hentry, hok, hdata, hlen, hhelper]
    rw [hres, foldl_eq_append_map _ _ hplain]

/-- Witness of C20: usage-check mode with an empty index; the open group `sg-1` gets
status 2 and the HTTPS-only group `sg-2` status 0. -/
theorem empty_index_behaves_as_mode_off_witness :
    (openAllPortsRegion emptyIndexHelpers
        (cacheOfGroups [sampleGroup "sg-1" [openToWorld], sampleGroup "sg-2" [httpsOnly]])
        skipUnusedOnly "aws" startAcc "us-east-1").acc.results =
      [{ status := 2
         message := "Security group: sg-1 (web) has all ports open to 0.0.0.0/0 and " ++
           "all protocols open to 0.0.0.0/0"
         region := some "us-east-1"
         resource := some "arn:aws:ec2:us-east-1:111122223333:security-group/sg-1" },
       { status := 0
         message :=
           "Security group: sg-2 (web) does not have all ports or protocols open to the public"
         region := some "us-east-1"
         resource := some "arn:aws:ec2:us-east-1:111122223333:security-group/sg-2" }] :=
  ((empty_index_behaves_as_mode_off emptyIndexHelpers
    (cacheOfGroups [sampleGroup "sg-1" [openToWorld], sampleGroup "sg-2" [httpsOnly]])
    false "aws" "us-east-1" (some []) (Or.inl rfl)).2.2.2 startAcc
    { err := none
      data := some [sampleGroup "sg-1" [openToWorld], sampleGroup "sg-2" [httpsOnly]] }
    [sampleGroup "sg-1" [openToWorld], sampleGroup "sg-2" [httpsOnly]] []
    rfl rfl rfl (by decide) rfl).trans (by decide)

/-! ## Claims on the precedence of the usage check and on monotonicity -/

theorem unusedGroup_eq_true_iff (config : Config) (usedGroups : Option (List String))
    (group : SecurityGroup) :
    unusedGroup config usedGroups group = true ↔
      config.ec2_skip_unused_groups = true ∧
        ∃ (groupId : String) (index : List String),
          group.GroupId = some groupId ∧ groupId ≠ "" ∧ usedGroups = some index ∧
            index ≠ [] ∧ groupId ∉ index := by
  cases hid : group.GroupId with
  | none => simp [unusedGroup, hid, truthyStr]
  | some groupId =>
    cases usedGroups with
    | none => simp [unusedGroup, hid, truthyStr]
    | some index =>
      by_cases hne : groupId = ""
      · subst hne; simp [unusedGroup, hid, truthyStr]
      · simp [unusedGroup, hid, truthyStr, jsStr, hne]

/-- C21: with both modes enabled, a group with descriptors whose identifier is a
non-empty string missing from a non-empty used-groups index gets exactly one
finding, of status 1, pushed by the rule whatever the network-interface check
is (so that check is not called for it); every other group with descriptors is
handed to the network-interface check, and what the group leaves in the
`results` array is what that check returns: the rule pushes nothing itself. -/
theorem usage_check_takes_precedence (h other : AwsHelpers) (cache : Cache) (config : Config)
    (awsOrGov region : String) (usedGroups : Option (List String)) (results : List Finding)
    (group : SecurityGroup)
    (hskip : config.ec2_skip_unused_groups = true)
    (heni : config.check_network_interface = true)
    (hflag : groupStrings group.IpPermissions ≠ []) :
    ((∃ (groupId : String) (index : List String),
          group.GroupId = some groupId ∧ groupId ≠ "" ∧ usedGroups = some index ∧
            index ≠ [] ∧ groupId ∉ index) →
        checkGroup h cache config awsOrGov region usedGroups results group =
            results ++ [{ status := 1
                          message := "Security Group: " ++ jsStr group.GroupId ++
                            " is not in use"
                          region := some region
                          resource := some (groupArn awsOrGov region group) }] ∧
          checkGroup other cache config awsOrGov region usedGroups results group =
            checkGroup h cache config awsOrGov region usedGroups results group) ∧
      ((¬ ∃ (groupId : String) (index : List String),
          group.GroupId = some groupId ∧ groupId ≠ "" ∧ usedGroups = some index ∧
            index ≠ [] ∧ groupId ∉ index) →
        checkGroup h cache config awsOrGov region usedGroups results group =
          h.checkNetworkInterface group.GroupId group.GroupName
            (flaggedMessage "Security group:" group (groupStrings group.IpPermissions))
            region results (groupArn awsOrGov region group) cache) := by
  constructor
  · intro hmissing
    have hu : unusedGroup config usedGroups group = true :=
      (unusedGroup_eq_true_iff config usedGroups group).mpr ⟨hskip, hmissing⟩
    rw [checkGroup_of_flagged h cache config awsOrGov region usedGroups results group hflag,
      checkGroup_of_flagged other cache config awsOrGov region usedGroups results group hflag,
      if_pos hu, if_pos hu]
    exact ⟨rfl, rfl⟩
  · intro hother
    have hu : ¬ (unusedGroup config usedGroups group = true) := by
      intro hu
      exact hother ((unusedGroup_eq_true_iff config usedGroups group).mp hu).2
    rw [checkGroup_of_flagged h cache config awsOrGov region usedGroups results group hflag,
      if_neg hu, heni]
    simp

/-- Witness of C21: with both modes on and the index `['sg-used']`, the open group
`sg-1` gets the single finding of status 1. -/
theorem usage_check_takes_precedence_witness :
    bothModes.ec2_skip_unused_groups = true ∧ bothModes.check_network_interface = true ∧
      groupStrings (sampleGroup "sg-1" [openToWorld]).IpPermissions ≠ [] ∧
      checkGroup sampleAwsHelpers emptyCache bothModes "aws" "us-east-1" (some ["sg-used"]) []
          (sampleGroup "sg-1" [openToWorld]) =
        [{ status := 1
           message := "Security Group: sg-1 is not in use"
           region := some "us-east-1"
           resource := some "arn:aws:ec2:us-east-1:111122223333:security-group/sg-1" }] :=
  ⟨rfl, rfl, by decide,
    ((usage_check_takes_precedence sampleAwsHelpers emptyIndexHelpers emptyCache bothModes "aws"
      "us-east-1" (some ["sg-used"]) [] (sampleGroup "sg-1" [openToWorld]) rfl rfl
      (by decide)).1 ⟨"sg-1", ["sg-used"], rfl, by decide, rfl, by decide, by decide⟩).1⟩

/-- C22: every descriptor produced for a list of permissions is also produced for
that list followed by further permissions; two lists that are permutations of
each other produce the same descriptors; so, with both modes disabled, a group
whose finding has status 2 still gets a finding of status 2 after permissions
are added to it. -/
theorem descriptors_monotone_in_permissions (permissions added : List IpPermission) :
    (∀ d ∈ groupStrings permissions, d ∈ groupStrings (permissions ++ added)) ∧
      (∀ reordered : List IpPermission, permissions.Perm reordered →
        ∀ d : String, d ∈ groupStrings permissions ↔ d ∈ groupStrings reordered) ∧
      (∀ (h : AwsHelpers) (cache : Cache) (config : Config) (awsOrGov region : String)
          (results : List Finding) (group : SecurityGroup),
        config.ec2_skip_unused_groups = false → config.check_network_interface = false →
        group.IpPermissions = permissions →
        (∃ f : Finding,
          checkGroup h cache config awsOrGov region none results group = results ++ [f] ∧
            f.status = 2) →
        ∃ f : Finding,
          checkGroup h cache config awsOrGov region none results
              { group with IpPermissions := permissions ++ added } = results ++ [f] ∧
            f.status = 2) := by
  have hmono : ∀ d ∈ groupStrings permissions, d ∈ groupStrings (permissions ++ added) := by
    intro d hd
    obtain ⟨p, hp, hhit⟩ := (mem_groupStrings d permissions).mp hd
    exact (mem_groupStrings d (permissions ++ added)).mpr
      ⟨p, List.mem_append_left added hp, hhit⟩
  refine ⟨hmono, ?_, ?_⟩
  · intro reordered hperm d
    rw [mem_groupStrings, mem_groupStrings]
    constructor
    · rintro ⟨p, hp, hhit⟩
      exact ⟨p, hperm.mem_iff.mp hp, hhit⟩
    · rintro ⟨p, hp, hhit⟩
      exact ⟨p, hperm.mem_iff.mpr hp, hhit⟩
  · rintro h cache config awsOrGov region results group hskip heni hperms ⟨f, hf, hstatus⟩
    rw [checkGroup_modes_off h cache config awsOrGov region none results group
      (unusedGroup_of_skip_off config none group hskip) heni] at hf
    have hfeq : modesOffFinding awsOrGov region group = f := by
      have hcancel := List.append_cancel_left hf
      exact List.head_eq_of_cons_eq hcancel
    have hflag : groupStrings group.IpPermissions ≠ [] := by
      apply (modesOffFinding_status awsOrGov region group).1.mp
      rw [hfeq]; exact hstatus
    have hflag2 : groupStrings (permissions ++ added) ≠ [] := by
      rw [hperms] at hflag
      obtain ⟨d, hd⟩ := List.exists_mem_of_ne_nil _ hflag
      exact List.ne_nil_of_mem (hmono d hd)
    refine ⟨modesOffFinding awsOrGov region { group with IpPermissions := permissions ++ added },
      ?_, ?_⟩
    · exact checkGroup_modes_off h cache config awsOrGov region none results _
        (unusedGroup_of_skip_off config none _ hskip) heni
    · exact (modesOffFinding_status awsOrGov region _).1.mpr hflag2

/-- Witness of C22: the descriptors of the open permission survive the addition of
an HTTPS-only permission, and do not depend on which of the two comes first. -/
theorem descriptors_monotone_in_permissions_witness :
    "all ports open to 0.0.0.0/0" ∈ groupStrings ([openToWorld] ++ [httpsOnly]) ∧
      ("all ports open to 0.0.0.0/0" ∈ groupStrings [openToWorld, httpsOnly] ↔
        "all ports open to 0.0.0.0/0" ∈ groupStrings [httpsOnly, openToWorld]) :=
  ⟨(descriptors_monotone_in_permissions [openToWorld] [httpsOnly]).1
      "all ports open to 0.0.0.0/0" (by decide),
    (descriptors_monotone_in_permissions [openToWorld, httpsOnly] []).2.1
      [httpsOnly, openToWorld] (List.Perm.swap httpsOnly openToWorld [])
      "all ports open to 0.0.0.0/0"⟩

end Cloudsploit
